import Mathlib

/-!
Verification development for the MedExplain query pipeline.

Python strings are shallow-embedded as lists of Unicode code points
(`PyStr := List Nat`); Python's ASCII case mapping, `str.title()`,
`str.strip()` and the regular-expression fragments actually used by the
code are modelled as executable functions on such lists.  Timestamps are
modelled as rationals (Python's `datetime` arithmetic yields real-valued
second counts).  External collaborators (vector store, LLM calls, FDA
fetcher) are modelled as oracle functions supplied in an environment
record; everything implemented inside the repository is translated
directly from the source.
-/

namespace MedExplain

/-- A Python string: its sequence of Unicode code points. -/
abbrev PyStr := List Nat

/-- Code points of a Lean string literal, for writing concrete Python strings. -/
def pys (s : String) : PyStr := s.data.map Char.toNat

/-- ASCII lower-casing of one code point (`str.lower` on the ASCII range). -/
def lowerC (c : Nat) : Nat := if 65 ≤ c ∧ c ≤ 90 then c + 32 else c

/-- ASCII upper-casing of one code point (`str.upper` on the ASCII range). -/
def upperC (c : Nat) : Nat := if 97 ≤ c ∧ c ≤ 122 then c - 32 else c

/-- ASCII letter test (Python's cased characters, ASCII fragment). -/
def isAlphaC (c : Nat) : Bool := (65 ≤ c ∧ c ≤ 90) ∨ (97 ≤ c ∧ c ≤ 122)

/-- ASCII digit test. -/
def isDigitC (c : Nat) : Bool := 48 ≤ c ∧ c ≤ 57

/-- Python whitespace (ASCII fragment): space, \t, \n, \r, \x0b, \x0c. -/
def isSpaceC (c : Nat) : Bool := c = 32 ∨ (9 ≤ c ∧ c ≤ 13)

/-- Regex `\w` (ASCII fragment): letters, digits, underscore. -/
def isWordC (c : Nat) : Bool := isAlphaC c || isDigitC c || c = 95

/-- `str.lower` (ASCII fragment). -/
def lowerS (s : PyStr) : PyStr := s.map lowerC

/-- `str.upper` (ASCII fragment). -/
def upperS (s : PyStr) : PyStr := s.map upperC

/-- `str.strip()`: remove leading and trailing whitespace. -/
def stripS (s : PyStr) : PyStr :=
  ((s.dropWhile (fun c => isSpaceC c)).reverse.dropWhile (fun c => isSpaceC c)).reverse

/-- Worker for `str.title()`: `prev` records whether the previous
character was cased (a letter). -/
def titleGo (prev : Bool) : PyStr → PyStr
  | [] => []
  | c :: cs => (if prev then lowerC c else upperC c) :: titleGo (isAlphaC c) cs

/-- Python `str.title()` (ASCII fragment). -/
def titleS (s : PyStr) : PyStr := titleGo false s

lemma lowerC_idem (c : Nat) : lowerC (lowerC c) = lowerC c := by
  unfold lowerC
  by_cases h : 65 ≤ c ∧ c ≤ 90
  · rw [if_pos h, if_neg (by omega)]
  · rw [if_neg h, if_neg h]

lemma upperC_idem (c : Nat) : upperC (upperC c) = upperC c := by
  unfold upperC
  by_cases h : 97 ≤ c ∧ c ≤ 122
  · rw [if_pos h, if_neg (by omega)]
  · rw [if_neg h, if_neg h]

lemma isAlphaC_lowerC (c : Nat) : isAlphaC (lowerC c) = isAlphaC c := by
  unfold isAlphaC lowerC
  by_cases h : 65 ≤ c ∧ c ≤ 90
  · rw [if_pos h]; exact decide_eq_decide.mpr (by omega)
  · rw [if_neg h]

lemma isAlphaC_upperC (c : Nat) : isAlphaC (upperC c) = isAlphaC c := by
  unfold isAlphaC upperC
  by_cases h : 97 ≤ c ∧ c ≤ 122
  · rw [if_pos h]; exact decide_eq_decide.mpr (by omega)
  · rw [if_neg h]

lemma lowerC_upperC_cancel {c : Nat} (h : upperC c = c) {c' : Nat}
    (h' : upperC c' = c') (hl : lowerC c = lowerC c') : c = c' := by
  unfold upperC at h h'; unfold lowerC at hl
  split at h <;> split at h' <;> split at hl <;> split at hl <;> omega

lemma lowerC_lower_cancel {c : Nat} (h : lowerC c = c) {c' : Nat}
    (h' : lowerC c' = c') (hl : lowerC c = lowerC c') : c = c' := by
  rw [h, h'] at hl; exact hl

/-- `titleGo` is idempotent (same lead state). -/
lemma titleGo_idem (prev : Bool) (s : PyStr) :
    titleGo prev (titleGo prev s) = titleGo prev s := by
  induction s generalizing prev with
  | nil => rfl
  | cons c cs ih =>
    simp only [titleGo]
    cases prev with
    | false =>
      simp only [Bool.false_eq_true, if_false, isAlphaC_upperC]
      rw [upperC_idem, ih]
    | true =>
      simp only [if_true, isAlphaC_lowerC]
      rw [lowerC_idem, ih]

/-- Two title-cased strings with equal lower-casings are equal. -/
lemma titleGo_inj (s t : PyStr) (prev : Bool)
    (hs : titleGo prev s = s) (ht : titleGo prev t = t)
    (hl : lowerS s = lowerS t) : s = t := by
  induction s generalizing t prev with
  | nil => cases t with
    | nil => rfl
    | cons c cs => simp [lowerS] at hl
  | cons c cs ih =>
    cases t with
    | nil => simp [lowerS] at hl
    | cons d ds =>
      simp only [titleGo, List.cons.injEq] at hs ht
      simp only [lowerS, List.map_cons, List.cons.injEq] at hl
      have hcd : c = d := by
        cases prev with
        | false =>
          simp only [Bool.false_eq_true, if_false] at hs ht
          exact lowerC_upperC_cancel hs.1 ht.1 hl.1
        | true =>
          simp only [if_true] at hs ht
          exact lowerC_lower_cancel hs.1 ht.1 hl.1
      subst hcd
      have := ih ds (isAlphaC c) hs.2 ht.2 hl.2
      rw [this]

/-! ## Conversation context (`conversation_context.py`) -/

/-- `ConversationContext` state: the recently mentioned drugs
(most-recent-first) and the time of the last mention.  Timestamps are
rationals (seconds). -/
structure ConvContext where
  recent_drugs : List PyStr
  last_query_time : Option ℚ
  deriving Repr, DecidableEq

/-- The freshly constructed context. -/
def ConvContext.init : ConvContext := ⟨[], none⟩

/-- `conversation_timeout = 300  # 5 minutes`. -/
def conversationTimeout : ℚ := 300

/-- `ConversationContext.add_drug_mention`; `now` is `datetime.now()`. -/
def addDrugMention (now : ℚ) (ctx : ConvContext) (drug_name : PyStr) : ConvContext :=
  if drug_name ≠ [] ∧ drug_name.length > 2 then
    let cleaned := titleS (stripS drug_name)
    let rd :=
      if cleaned ∉ ctx.recent_drugs then
        (cleaned :: ctx.recent_drugs).take 3
      else ctx.recent_drugs
    { recent_drugs := rd, last_query_time := some now }
  else ctx

/-- `ConversationContext._is_context_valid`. -/
def isContextValid (now : ℚ) (ctx : ConvContext) : Bool :=
  match ctx.last_query_time with
  | none => false
  | some t => now - t < conversationTimeout

/-- `ConversationContext.clear_context`. -/
def clearContext (_ctx : ConvContext) : ConvContext := ⟨[], none⟩

/-- Substring containment (`re.search` of a literal pattern). -/
def containsSub (p : PyStr) : PyStr → Bool
  | [] => p.isEmpty
  | c :: t => p.isPrefixOf (c :: t) || containsSub p t

/-- The literal follow-up patterns of `ConversationContext.followup_patterns`
(all are plain substrings except `r"^with "`, which is anchored and handled
separately in `followupMatch`). -/
def followupLiteralPatterns : List PyStr :=
  [pys "can i take it with", pys "take it together with", pys "combine it with",
   pys "mix it with", pys "use it with",
   pys "can i take this with", pys "take this together with",
   pys "combine this with", pys "mix this with",
   pys "can i take that with", pys "take that together with",
   pys "combine that with",
   pys "together with", pys "along with",
   pys "what about with", pys "what about", pys "how about with",
   pys "how about", pys "and with"]

/-- `any(re.search(pattern, query_lower) for pattern in self.followup_patterns)`:
every pattern is a literal substring except the anchored `r"^with "`. -/
def followupMatch (q : PyStr) : Bool :=
  (pys "with ").isPrefixOf q || followupLiteralPatterns.any (fun p => containsSub p q)

/-- `ConversationContext.is_followup_question`. -/
def isFollowupQuestion (now : ℚ) (ctx : ConvContext) (query : PyStr) : Bool :=
  if ctx.recent_drugs.isEmpty || !isContextValid now ctx then false
  else followupMatch (stripS (lowerS query))

/-- The invariant maintained on the recent-drug list: at most 3 entries,
pairwise distinct, every entry a fixed point of `str.title()`. -/
def CtxInv (ctx : ConvContext) : Prop :=
  ctx.recent_drugs.length ≤ 3 ∧ ctx.recent_drugs.Nodup ∧
    ∀ s ∈ ctx.recent_drugs, titleS s = s

instance (ctx : ConvContext) : Decidable (CtxInv ctx) := by
  unfold CtxInv; infer_instance

/-- C5: `is_followup_question` is `false` whenever no mention is fresh
within the 300-second window, whatever the query text. -/
theorem followup_false_without_fresh_mention (now : ℚ) (ctx : ConvContext)
    (query : PyStr)
    (h : ctx.last_query_time = none ∨
         ∃ t, ctx.last_query_time = some t ∧ conversationTimeout ≤ now - t) :
    isFollowupQuestion now ctx query = false := by
  have hvalid : isContextValid now ctx = false := by
    rcases h with h | ⟨t, ht, hle⟩
    · simp [isContextValid, h]
    · simp [isContextValid, ht, not_lt.mpr hle]
  unfold isFollowupQuestion
  rw [hvalid]
  simp

/-- Witness for C5 at a concrete stale context whose query text does match
a follow-up pattern. -/
theorem followup_false_without_fresh_mention_witness :
    ((⟨[pys "Aspirin"], some 0⟩ : ConvContext).last_query_time = none ∨
       ∃ t, (⟨[pys "Aspirin"], some 0⟩ : ConvContext).last_query_time = some t ∧
         conversationTimeout ≤ (300 : ℚ) - t) ∧
    followupMatch (stripS (lowerS (pys "what about with ibuprofen"))) = true ∧
    isFollowupQuestion 300 ⟨[pys "Aspirin"], some 0⟩ (pys "what about with ibuprofen") = false :=
  ⟨Or.inr ⟨0, rfl, by norm_num [conversationTimeout]⟩, by decide,
   followup_false_without_fresh_mention 300 _ _ (Or.inr ⟨0, rfl, by norm_num [conversationTimeout]⟩)⟩

/-- C3 counterexample: with `recent_drugs = ["Ibuprofen", "Aspirin"]`, adding
a mention of `"aspirin"` does NOT move `"Aspirin"` to position 0 — the list
is left unchanged (the insert only happens when the cleaned name is absent). -/
theorem addMention_existing_not_moved_to_front :
    (addDrugMention 1 ⟨[pys "Ibuprofen", pys "Aspirin"], some 0⟩
        (pys "aspirin")).recent_drugs = [pys "Ibuprofen", pys "Aspirin"] ∧
    (addDrugMention 1 ⟨[pys "Ibuprofen", pys "Aspirin"], some 0⟩
        (pys "aspirin")).recent_drugs.head? ≠
      some (titleS (stripS (pys "aspirin"))) := by
  constructor
  · decide
  · decide

/-- C3 amended: for a drug name of length > 2, `add_drug_mention` inserts the
cleaned title-cased name at position 0 and truncates to 3 entries ONLY when
the cleaned name is not already in the list; when it is already present the
list is unchanged (the entry keeps its old position).  The timestamp is
refreshed in both cases. -/
theorem addMention_spec (now : ℚ) (ctx : ConvContext) (d : PyStr)
    (h : d.length > 2) :
    (addDrugMention now ctx d).last_query_time = some now ∧
    (titleS (stripS d) ∉ ctx.recent_drugs →
      (addDrugMention now ctx d).recent_drugs =
        (titleS (stripS d) :: ctx.recent_drugs).take 3) ∧
    (titleS (stripS d) ∈ ctx.recent_drugs →
      (addDrugMention now ctx d).recent_drugs = ctx.recent_drugs) := by
  have hne : d ≠ [] := by
    intro hnil; rw [hnil] at h; simp at h
  unfold addDrugMention
  rw [if_pos ⟨hne, h⟩]
  by_cases hm : titleS (stripS d) ∈ ctx.recent_drugs
  · exact ⟨rfl, fun hn => absurd hm hn, fun _ => by simp [hm]⟩
  · exact ⟨rfl, fun _ => by simp [hm], fun hmem => absurd hmem hm⟩

/-- Witness for the amended C3 at a concrete input. -/
theorem addMention_spec_witness :
    (pys "advil").length > 2 ∧
    ((addDrugMention 5 ⟨[pys "Tylenol"], some 0⟩ (pys "advil")).last_query_time
        = some 5 ∧
      (titleS (stripS (pys "advil")) ∉ [pys "Tylenol"] →
        (addDrugMention 5 ⟨[pys "Tylenol"], some 0⟩ (pys "advil")).recent_drugs =
          (titleS (stripS (pys "advil")) :: [pys "Tylenol"]).take 3) ∧
      (titleS (stripS (pys "advil")) ∈ [pys "Tylenol"] →
        (addDrugMention 5 ⟨[pys "Tylenol"], some 0⟩ (pys "advil")).recent_drugs =
          [pys "Tylenol"])) :=
  ⟨by decide, addMention_spec 5 ⟨[pys "Tylenol"], some 0⟩ (pys "advil") (by decide)⟩

lemma titleS_fix_of_titleS (s : PyStr) : titleS (titleS s) = titleS s :=
  titleGo_idem false s

/-- C4: the recent-drug list invariant (≤ 3 entries, pairwise distinct,
title-cased) holds initially, is preserved by `add_drug_mention` and
`clear_context`; entries are also pairwise distinct after casing
normalization; and from a full context, a new distinct mention evicts the
oldest entry, leaving exactly 3 in most-recent-first order. -/
theorem contextInvariant (now : ℚ) (ctx : ConvContext) (d : PyStr)
    (hInv : CtxInv ctx) :
    CtxInv ConvContext.init ∧
    CtxInv (addDrugMention now ctx d) ∧
    CtxInv (clearContext ctx) ∧
    (ctx.recent_drugs.map lowerS).Nodup ∧
    (∀ x y z, ctx.recent_drugs = [x, y, z] → d.length > 2 →
      titleS (stripS d) ∉ ctx.recent_drugs →
      (addDrugMention now ctx d).recent_drugs = [titleS (stripS d), x, y]) := by
  obtain ⟨hlen, hnd, hfix⟩ := hInv
  refine ⟨⟨by simp [ConvContext.init], by simp [ConvContext.init],
            by simp [ConvContext.init]⟩, ?_, ?_, ?_, ?_⟩
  · unfold addDrugMention
    split
    · dsimp only
      by_cases hm : titleS (stripS d) ∈ ctx.recent_drugs
      · rw [if_neg (by simpa using hm)]
        exact ⟨hlen, hnd, hfix⟩
      · rw [if_pos (by simpa using hm)]
        refine ⟨List.length_take_le _ _, ?_, ?_⟩
        · exact List.Nodup.sublist (List.take_sublist _ _)
            (List.nodup_cons.mpr ⟨hm, hnd⟩)
        · intro s hs
          have hs' : s ∈ titleS (stripS d) :: ctx.recent_drugs :=
            List.mem_of_mem_take hs
          rcases List.mem_cons.mp hs' with h1 | h2
          · rw [h1]; exact titleS_fix_of_titleS _
          · exact hfix s h2
    · exact ⟨hlen, hnd, hfix⟩
  · exact ⟨by simp [clearContext], by simp [clearContext], by simp [clearContext]⟩
  · refine List.Nodup.map_on ?_ hnd
    intro x hx y hy hxy
    exact titleGo_inj x y false (hfix x hx) (hfix y hy) hxy
  · intro x y z hl hlen3 hnotmem
    have hne : d ≠ [] := by
      intro hnil; rw [hnil] at hlen3; simp at hlen3
    unfold addDrugMention
    rw [if_pos ⟨hne, hlen3⟩]
    dsimp only
    rw [if_pos (by simpa using hnotmem), hl]
    rfl

/-- Witness for C4 at a concrete full context and a fresh 4th drug. -/
theorem contextInvariant_witness :
    CtxInv ⟨[pys "Aspirin", pys "Tylenol", pys "Advil"], some 0⟩ ∧
    (addDrugMention 5 ⟨[pys "Aspirin", pys "Tylenol", pys "Advil"], some 0⟩
        (pys "motrin")).recent_drugs =
      [titleS (stripS (pys "motrin")), pys "Aspirin", pys "Tylenol"] := by
  have hInv : CtxInv ⟨[pys "Aspirin", pys "Tylenol", pys "Advil"], some 0⟩ := by
    decide
  refine ⟨hInv, ?_⟩
  exact (contextInvariant 5 _ (pys "motrin") hInv).2.2.2.2
    (pys "Aspirin") (pys "Tylenol") (pys "Advil") rfl (by decide) (by decide)

/-! ## Interaction analyzer (`interaction_analyzer.py`) -/

/-- Association-list lookup with Python `dict` semantics (`k in d` / `d[k]`). -/
def lookupP {α : Type} [DecidableEq α] {β : Type} (k : α) :
    List (α × β) → Option β
  | [] => none
  | (k', v) :: t => if k = k' then some v else lookupP k t

/-- `InteractionAnalyzer.safe_combinations`. -/
def safeCombinations : List ((PyStr × PyStr) × PyStr) :=
  [((pys "acetaminophen", pys "amoxicillin"), pys "safe"),
   ((pys "acetaminophen", pys "azithromycin"), pys "safe"),
   ((pys "acetaminophen", pys "cephalexin"), pys "safe"),
   ((pys "ibuprofen", pys "amoxicillin"), pys "safe_with_caution"),
   ((pys "acetaminophen", pys "ibuprofen"), pys "safe_alternating"),
   ((pys "lisinopril", pys "amoxicillin"), pys "safe"),
   ((pys "amlodipine", pys "amoxicillin"), pys "safe"),
   ((pys "metoprolol", pys "amoxicillin"), pys "safe"),
   ((pys "metformin", pys "amoxicillin"), pys "safe"),
   ((pys "metformin", pys "azithromycin"), pys "safe")]

/-- `InteractionAnalyzer.problematic_combinations`. -/
def problematicCombinations : List ((PyStr × PyStr) × PyStr) :=
  [((pys "warfarin", pys "ibuprofen"), pys "bleeding_risk"),
   ((pys "warfarin", pys "aspirin"), pys "bleeding_risk"),
   ((pys "warfarin", pys "naproxen"), pys "bleeding_risk"),
   ((pys "ibuprofen", pys "naproxen"), pys "increased_side_effects"),
   ((pys "ibuprofen", pys "aspirin"), pys "increased_bleeding_gi_risk"),
   ((pys "zolpidem", pys "lorazepam"), pys "excessive_sedation"),
   ((pys "alprazolam", pys "zolpidem"), pys "excessive_sedation")]

/-- `InteractionAnalyzer.class_interactions`. -/
def classInteractions : List ((PyStr × PyStr) × PyStr) :=
  [((pys "nsaid", pys "ace_inhibitor"), pys "reduced_effectiveness"),
   ((pys "nsaid", pys "diuretic"), pys "kidney_function_concern"),
   ((pys "beta_blocker", pys "calcium_channel_blocker"), pys "low_blood_pressure_risk"),
   ((pys "ssri", pys "nsaid"), pys "bleeding_risk")]

/-- `InteractionAnalyzer.drug_classes`. -/
def drugClasses : List (PyStr × PyStr) :=
  [(pys "acetaminophen", pys "analgesic"),
   (pys "ibuprofen", pys "nsaid"),
   (pys "naproxen", pys "nsaid"),
   (pys "aspirin", pys "nsaid"),
   (pys "lisinopril", pys "ace_inhibitor"),
   (pys "amlodipine", pys "calcium_channel_blocker"),
   (pys "metoprolol", pys "beta_blocker"),
   (pys "hydrochlorothiazide", pys "diuretic"),
   (pys "sertraline", pys "ssri"),
   (pys "fluoxetine", pys "ssri"),
   (pys "warfarin", pys "anticoagulant"),
   (pys "amoxicillin", pys "antibiotic"),
   (pys "azithromycin", pys "antibiotic"),
   (pys "cephalexin", pys "antibiotic")]

/-- `InteractionAnalyzer._normalize_drug_name` (the analyzer's own variant table). -/
def normVariant (drug_name : PyStr) : PyStr :=
  match lookupP drug_name
      [(pys "tylenol", pys "acetaminophen"),
       (pys "advil", pys "ibuprofen"),
       (pys "motrin", pys "ibuprofen"),
       (pys "aleve", pys "naproxen"),
       (pys "zpack", pys "azithromycin"),
       (pys "amoxil", pys "amoxicillin")] with
  | some g => g
  | none => drug_name

/-- Result dictionary of `InteractionAnalyzer.analyze_interaction`. -/
structure InteractionResult where
  interaction_found : Bool
  severity : PyStr
  description : PyStr
  advice : PyStr
  confidence : PyStr
  deriving Repr, DecidableEq

/-- The `responses` dictionary of `_create_interaction_response`
(`.get(interaction_type, "Interaction noted")`). -/
def interactionDescription (drug1 drug2 interaction_type : PyStr) : PyStr :=
  match lookupP interaction_type
      [(pys "safe", pys "Yes, " ++ drug1 ++ pys " and " ++ drug2 ++
          pys " are generally safe to take together. There are no known significant interactions between these medications."),
       (pys "safe_with_caution", pys "Yes, " ++ drug1 ++ pys " and " ++ drug2 ++
          pys " can typically be taken together, but monitor for increased side effects. Take the anti-inflammatory with food to reduce stomach irritation."),
       (pys "safe_alternating", pys "Yes, " ++ drug1 ++ pys " and " ++ drug2 ++
          pys " can be taken together and are sometimes recommended in alternating doses for better pain control. Space them out by 2-3 hours when possible."),
       (pys "bleeding_risk", pys "⚠️ **Caution needed.** " ++ drug1 ++ pys " and " ++ drug2 ++
          pys " can increase bleeding risk when taken together. Your doctor may need to monitor you more closely or adjust dosages."),
       (pys "increased_side_effects", pys "⚠️ **Not recommended.** Taking " ++ drug1 ++ pys " and " ++ drug2 ++
          pys " together can increase the risk of side effects like stomach problems and kidney issues. Choose one or consult your doctor."),
       (pys "increased_bleeding_gi_risk", pys "⚠️ **Caution needed.** " ++ drug1 ++ pys " and " ++ drug2 ++
          pys " together increase the risk of stomach bleeding and ulcers. Take with food and watch for stomach pain."),
       (pys "excessive_sedation", pys "⚠️ **Not recommended without medical supervision.** " ++ drug1 ++ pys " and " ++ drug2 ++
          pys " can cause dangerous levels of sedation and breathing problems when combined."),
       (pys "reduced_effectiveness", pys "⚠️ **Monitor closely.** " ++ drug1 ++
          pys " may reduce the effectiveness of " ++ drug2 ++
          pys ". Your doctor might need to adjust dosages or monitor your response."),
       (pys "kidney_function_concern", pys "⚠️ **Monitor kidney function.** This combination can affect kidney function, especially if you're dehydrated or elderly. Drink plenty of water."),
       (pys "low_blood_pressure_risk", pys "⚠️ **Monitor blood pressure.** This combination can cause blood pressure to drop too low. Watch for dizziness or lightheadedness.")] with
  | some s => s
  | none => pys "Interaction noted"

/-- The `advice` dictionary of `_create_interaction_response`
(`.get(severity, "Consult your healthcare provider")`). -/
def interactionAdvice (severity : PyStr) : PyStr :=
  match lookupP severity
      [(pys "safe", pys "You can take these medications as directed by your doctor or the package instructions."),
       (pys "caution", pys "Consult your doctor or pharmacist before combining these medications, especially if you have other health conditions."),
       (pys "monitor", pys "Regular monitoring may be needed when taking these together. Keep track of any new symptoms.")] with
  | some s => s
  | none => pys "Consult your healthcare provider"

/-- `InteractionAnalyzer._create_interaction_response`. -/
def createInteractionResponse (drug1 drug2 interaction_type severity : PyStr) :
    InteractionResult :=
  { interaction_found := true
    severity := severity
    description := interactionDescription drug1 drug2 interaction_type
    advice := interactionAdvice severity
    confidence := if interaction_type = pys "safe" ∨ interaction_type = pys "bleeding_risk"
      then pys "High" else pys "Moderate" }

/-- `InteractionAnalyzer._create_unknown_interaction_response`. -/
def createUnknownInteractionResponse (drug1 drug2 : PyStr) : InteractionResult :=
  { interaction_found := false
    severity := pys "unknown"
    description := pys "No specific interaction information is available for " ++ drug1 ++
      pys " and " ++ drug2 ++
      pys " in my current database. However, this doesn't mean they're automatically safe together."
    advice := pys "Always consult with your doctor or pharmacist before combining medications, even if no interactions are known. They can review your complete medication list and health history."
    confidence := pys "Low" }

/-- `InteractionAnalyzer.analyze_interaction`. -/
def analyzeInteraction (drug1 drug2 : PyStr) : InteractionResult :=
  let d1 := normVariant (stripS (lowerS drug1))
  let d2 := normVariant (stripS (lowerS drug2))
  match lookupP (d1, d2) safeCombinations with
  | some t => createInteractionResponse drug1 drug2 t (pys "safe")
  | none =>
  match lookupP (d2, d1) safeCombinations with
  | some t => createInteractionResponse drug1 drug2 t (pys "safe")
  | none =>
  match lookupP (d1, d2) problematicCombinations with
  | some t => createInteractionResponse drug1 drug2 t (pys "caution")
  | none =>
  match lookupP (d2, d1) problematicCombinations with
  | some t => createInteractionResponse drug1 drug2 t (pys "caution")
  | none =>
  match lookupP d1 drugClasses, lookupP d2 drugClasses with
  | some c1, some c2 =>
    (match lookupP (c1, c2) classInteractions with
     | some t => createInteractionResponse drug1 drug2 t (pys "monitor")
     | none =>
     match lookupP (c2, c1) classInteractions with
     | some t => createInteractionResponse drug1 drug2 t (pys "monitor")
     | none => createUnknownInteractionResponse drug1 drug2)
  | _, _ => createUnknownInteractionResponse drug1 drug2

/-- C7: for every key pair of the safe-combination table, `analyze` returns
the same severity in both argument orders. -/
theorem analyze_severity_order_independent :
    safeCombinations.all (fun e =>
      (analyzeInteraction e.1.1 e.1.2).severity =
        (analyzeInteraction e.1.2 e.1.1).severity) = true := by
  decide

/-! ## Drug name normalizer (`drug_normalizer.py`) -/

/-- `DrugNameNormalizer.brand_to_generic`. -/
def brandToGeneric : List (PyStr × PyStr) :=
  [(pys "advil", pys "ibuprofen"),
   (pys "motrin", pys "ibuprofen"),
   (pys "tylenol", pys "acetaminophen"),
   (pys "aspirin", pys "aspirin"),
   (pys "aleve", pys "naproxen"),
   (pys "prinivil", pys "lisinopril"),
   (pys "zestril", pys "lisinopril"),
   (pys "norvasc", pys "amlodipine"),
   (pys "lopressor", pys "metoprolol"),
   (pys "toprol", pys "metoprolol"),
   (pys "cozaar", pys "losartan"),
   (pys "glucophage", pys "metformin"),
   (pys "fortamet", pys "metformin"),
   (pys "ozempic", pys "semaglutide"),
   (pys "wegovy", pys "semaglutide"),
   (pys "rybelsus", pys "semaglutide"),
   (pys "zoloft", pys "sertraline"),
   (pys "lexapro", pys "escitalopram"),
   (pys "prozac", pys "fluoxetine"),
   (pys "cymbalta", pys "duloxetine"),
   (pys "wellbutrin", pys "bupropion"),
   (pys "xanax", pys "alprazolam"),
   (pys "ativan", pys "lorazepam"),
   (pys "klonopin", pys "clonazepam"),
   (pys "valium", pys "diazepam"),
   (pys "proventil", pys "albuterol"),
   (pys "ventolin", pys "albuterol"),
   (pys "singulair", pys "montelukast"),
   (pys "flovent", pys "fluticasone"),
   (pys "prilosec", pys "omeprazole"),
   (pys "prevacid", pys "lansoprazole"),
   (pys "nexium", pys "esomeprazole"),
   (pys "protonix", pys "pantoprazole"),
   (pys "pepcid", pys "famotidine"),
   (pys "zantac", pys "ranitidine"),
   (pys "lipitor", pys "atorvastatin"),
   (pys "crestor", pys "rosuvastatin"),
   (pys "zocor", pys "simvastatin"),
   (pys "pravachol", pys "pravastatin"),
   (pys "amoxil", pys "amoxicillin"),
   (pys "augmentin", pys "amoxicillin"),
   (pys "zpack", pys "azithromycin"),
   (pys "zithromax", pys "azithromycin"),
   (pys "cipro", pys "ciprofloxacin"),
   (pys "levaquin", pys "levofloxacin"),
   (pys "keflex", pys "cephalexin"),
   (pys "bactrim", pys "sulfamethoxazole"),
   (pys "ambien", pys "zolpidem"),
   (pys "lunesta", pys "eszopiclone"),
   (pys "sonata", pys "zaleplon"),
   (pys "claritin", pys "loratadine"),
   (pys "zyrtec", pys "cetirizine"),
   (pys "allegra", pys "fexofenadine"),
   (pys "benadryl", pys "diphenhydramine"),
   (pys "coumadin", pys "warfarin"),
   (pys "eliquis", pys "apixaban"),
   (pys "xarelto", pys "rivaroxaban"),
   (pys "plavix", pys "clopidogrel"),
   (pys "synthroid", pys "levothyroxine"),
   (pys "levoxyl", pys "levothyroxine"),
   (pys "neurontin", pys "gabapentin"),
   (pys "lyrica", pys "pregabalin"),
   (pys "tramadol", pys "tramadol"),
   (pys "percocet", pys "oxycodone"),
   (pys "vicodin", pys "hydrocodone"),
   (pys "panadol", pys "acetaminophen"),
   (pys "excedrin", pys "acetaminophen"),
   (pys "feverall", pys "acetaminophen"),
   (pys "paracetamol", pys "acetaminophen"),
   (pys "paracetomol", pys "acetaminophen")]

/-- `DrugNameNormalizer.common_misspellings`.  The Python dict literal lists
`"paracetomol"` twice with the same value; dict construction keeps one
entry, so the duplicate is dropped here. -/
def commonMisspellings : List (PyStr × PyStr) :=
  [(pys "ibuprofin", pys "ibuprofen"),
   (pys "ibuprophen", pys "ibuprofen"),
   (pys "ibuprofen", pys "ibuprofen"),
   (pys "acetominophen", pys "acetaminophen"),
   (pys "acetaminaphen", pys "acetaminophen"),
   (pys "paracetomol", pys "acetaminophen"),
   (pys "paracetamol", pys "acetaminophen"),
   (pys "parcetamol", pys "acetaminophen"),
   (pys "lisinpril", pys "lisinopril"),
   (pys "lisinopril", pys "lisinopril"),
   (pys "metformin", pys "metformin"),
   (pys "metphormin", pys "metformin"),
   (pys "amlodapine", pys "amlodipine"),
   (pys "amlodipene", pys "amlodipine"),
   (pys "omeprazol", pys "omeprazole"),
   (pys "omeprozole", pys "omeprazole"),
   (pys "sertralin", pys "sertraline"),
   (pys "sertraline", pys "sertraline"),
   (pys "gabapenten", pys "gabapentin"),
   (pys "gabapentin", pys "gabapentin"),
   (pys "diclofenac", pys "diclofenac"),
   (pys "naproxen", pys "naproxen"),
   (pys "asprin", pys "aspirin"),
   (pys "asiprin", pys "aspirin")]

/-- `all_known_drugs`: the union of keys and values of the two tables.  The
Python code stores these in a `set`, whose iteration order is an
implementation detail; membership, which is all the claims depend on, is
order-independent.  Here the union is kept in insertion order with
duplicates removed. -/
def allKnownDrugs : List PyStr :=
  ((brandToGeneric.map Prod.fst) ++ (brandToGeneric.map Prod.snd) ++
   (commonMisspellings.map Prod.fst) ++ (commonMisspellings.map Prod.snd)).dedup

/-- `DrugNameNormalizer.normalize_drug_name`. -/
def normalizeDrugName (drug_name : PyStr) : PyStr :=
  if drug_name = [] then []
  else
    let cleaned := (stripS (lowerS drug_name)).filter (fun c => 97 ≤ c ∧ c ≤ 122)
    match lookupP cleaned brandToGeneric with
    | some g => titleS g
    | none =>
      match lookupP cleaned commonMisspellings with
      | some g => titleS g
      | none => titleS drug_name

/-- C8: for every brand name in the brand-to-generic table,
`normalize_drug_name` returns the title-cased generic. -/
theorem normalize_brand_gives_titlecased_generic :
    brandToGeneric.all (fun e => normalizeDrugName e.1 = titleS e.2) = true := by
  decide

/-! ## Plain-English translator (`plain_english_translator.py`) -/

/-- `PlainEnglishTranslator.jargon_dict` in dict insertion order (the
duplicate `"hypertension"` literal collapses to one entry). -/
def jargonDict : List (PyStr × PyStr) :=
  [(pys "contraindication", pys "reason not to use"),
   (pys "contraindications", pys "reasons not to use"),
   (pys "adverse effects", pys "side effects"),
   (pys "adverse reactions", pys "bad reactions"),
   (pys "hypersensitivity", pys "allergic reaction"),
   (pys "anaphylaxis", pys "severe allergic reaction"),
   (pys "hepatotoxicity", pys "liver damage"),
   (pys "nephrotoxicity", pys "kidney damage"),
   (pys "cardiotoxicity", pys "heart damage"),
   (pys "myocardial infarction", pys "heart attack"),
   (pys "cerebrovascular accident", pys "stroke"),
   (pys "hypertension", pys "high blood pressure"),
   (pys "hypotension", pys "low blood pressure"),
   (pys "bradycardia", pys "slow heart rate"),
   (pys "tachycardia", pys "fast heart rate"),
   (pys "arrhythmia", pys "irregular heartbeat"),
   (pys "dyspnea", pys "difficulty breathing"),
   (pys "nausea", pys "feeling sick to your stomach"),
   (pys "emesis", pys "vomiting"),
   (pys "diarrhea", pys "loose stools"),
   (pys "constipation", pys "difficulty having bowel movements"),
   (pys "somnolence", pys "drowsiness"),
   (pys "insomnia", pys "trouble sleeping"),
   (pys "vertigo", pys "dizziness"),
   (pys "syncope", pys "fainting"),
   (pys "tremor", pys "shaking"),
   (pys "seizure", pys "convulsion"),
   (pys "edema", pys "swelling"),
   (pys "pruritus", pys "itching"),
   (pys "rash", pys "skin irritation"),
   (pys "urticaria", pys "hives"),
   (pys "photosensitivity", pys "increased sensitivity to sunlight"),
   (pys "xerostomia", pys "dry mouth"),
   (pys "orally", pys "by mouth"),
   (pys "sublingually", pys "under the tongue"),
   (pys "topically", pys "on the skin"),
   (pys "intramuscularly", pys "injected into muscle"),
   (pys "intravenously", pys "injected into vein"),
   (pys "subcutaneously", pys "injected under skin"),
   (pys "bid", pys "twice daily"),
   (pys "tid", pys "three times daily"),
   (pys "qid", pys "four times daily"),
   (pys "qd", pys "once daily"),
   (pys "prn", pys "as needed"),
   (pys "po", pys "by mouth"),
   (pys "mg", pys "milligrams"),
   (pys "mcg", pys "micrograms"),
   (pys "ml", pys "milliliters"),
   (pys "capsule", pys "pill"),
   (pys "tablet", pys "pill"),
   (pys "diabetes mellitus", pys "diabetes"),
   (pys "gastroesophageal reflux", pys "acid reflux"),
   (pys "rhinitis", pys "runny nose"),
   (pys "conjunctivitis", pys "pink eye"),
   (pys "dermatitis", pys "skin inflammation"),
   (pys "arthritis", pys "joint inflammation"),
   (pys "bronchitis", pys "chest infection"),
   (pys "pneumonia", pys "lung infection"),
   (pys "gastritis", pys "stomach inflammation"),
   (pys "hepatitis", pys "liver inflammation"),
   (pys "nephritis", pys "kidney inflammation"),
   (pys "bioavailability", pys "how much gets into your body"),
   (pys "half-life", pys "how long it stays in your body"),
   (pys "metabolism", pys "how your body processes it"),
   (pys "excretion", pys "how your body gets rid of it"),
   (pys "absorption", pys "how it gets into your body"),
   (pys "distribution", pys "how it spreads through your body"),
   (pys "therapeutic", pys "helpful for treatment"),
   (pys "prophylactic", pys "preventive"),
   (pys "analgesic", pys "pain reliever"),
   (pys "antipyretic", pys "fever reducer"),
   (pys "anti-inflammatory", pys "reduces swelling"),
   (pys "antihistamine", pys "allergy medicine"),
   (pys "antibiotic", pys "infection fighter"),
   (pys "antiviral", pys "virus fighter"),
   (pys "antifungal", pys "fungus fighter"),
   (pys "diuretic", pys "water pill"),
   (pys "laxative", pys "helps with bowel movements"),
   (pys "antiemetic", pys "prevents nausea"),
   (pys "sedative", pys "calming medicine"),
   (pys "stimulant", pys "energizing medicine"),
   (pys "cardiovascular", pys "heart and blood vessels"),
   (pys "respiratory", pys "breathing system"),
   (pys "gastrointestinal", pys "stomach and intestines"),
   (pys "genitourinary", pys "urinary and reproductive systems"),
   (pys "musculoskeletal", pys "muscles and bones"),
   (pys "neurological", pys "nervous system"),
   (pys "dermatological", pys "skin-related"),
   (pys "ophthalmological", pys "eye-related"),
   (pys "otic", pys "ear-related"),
   (pys "monitor hepatic function", pys "check liver health"),
   (pys "renal impairment", pys "kidney problems"),
   (pys "cardiac function", pys "heart health"),
   (pys "laboratory values", pys "blood test results"),
   (pys "clinical trials", pys "medical research studies"),
   (pys "placebo-controlled", pys "compared to fake medicine"),
   (pys "double-blind", pys "neither patient nor doctor knew which treatment"),
   (pys "randomized", pys "patients randomly assigned to treatments")]

/-- Stable insertion (descending key length): the element goes in front of
the first entry whose key is not longer, so earlier list elements stay
first among equal lengths — the behaviour of Python's stable
`sorted(..., key=lambda x: len(x[0]), reverse=True)`. -/
def insertByLen (x : PyStr × PyStr) : List (PyStr × PyStr) → List (PyStr × PyStr)
  | [] => [x]
  | y :: ys => if x.1.length ≥ y.1.length then x :: y :: ys else y :: insertByLen x ys

/-- `sorted(self.jargon_dict.items(), key=lambda x: len(x[0]), reverse=True)`. -/
def sortedJargon : List (PyStr × PyStr) := jargonDict.foldr insertByLen []

/-- Case-insensitive literal prefix match; returns the remainder on success.
The second component of `re.sub`'s behaviour (what follows the match). -/
def matchPrefixCI : PyStr → PyStr → Option PyStr
  | [], s => some s
  | _ :: _, [] => none
  | k :: ks, c :: cs => if lowerC c = k then matchPrefixCI ks cs else none

lemma matchPrefixCI_length :
    ∀ (k s r : PyStr), matchPrefixCI k s = some r → r.length + k.length = s.length := by
  intro k
  induction k with
  | nil => intro s r h; simp [matchPrefixCI] at h; simp [h]
  | cons k0 ks ih =>
    intro s r h
    cases s with
    | nil => simp [matchPrefixCI] at h
    | cons c cs =>
      simp only [matchPrefixCI] at h
      split at h
      · have := ih cs r h
        simp [List.length_cons]; omega
      · exact absurd h (by simp)

/-- Word-character test of the head of the remaining text (`false` at the
end of the string), for the trailing `\b`. -/
def headWordB : PyStr → Bool
  | [] => false
  | c :: _ => isWordC c

/-- One pattern of `_apply_dictionary_translations`:
`re.sub(r'\b' + re.escape(jargon) + r'\b', plain, result, flags=re.IGNORECASE)`
for the non-empty literal `k0 :: ks`.  `pw` records whether the character
before the current position is a word character (`false` at the start);
both `\b`s are evaluated on the original text, and scanning resumes after
each match without re-examining the replacement, exactly as `re.sub` does.
`fuel` bounds the number of scanning steps; it is called with
`fuel = s.length`, which always suffices because every step consumes at
least one character of `s`. -/
def subAllF (k0 : Nat) (ks val : PyStr) : Nat → Bool → PyStr → PyStr
  | 0, _, s => s
  | _ + 1, _, [] => []
  | fuel + 1, pw, c :: cs =>
    match matchPrefixCI (k0 :: ks) (c :: cs) with
    | some rest =>
      if pw ≠ isWordC c ∧
         isWordC (((c :: cs).take (k0 :: ks).length).getLastD 0) ≠ headWordB rest then
        val ++ subAllF k0 ks val fuel
          (isWordC (((c :: cs).take (k0 :: ks).length).getLastD 0)) rest
      else c :: subAllF k0 ks val fuel (isWordC c) cs
    | none => c :: subAllF k0 ks val fuel (isWordC c) cs

/-- The full `re.sub` for one jargon entry. -/
def subAll (k0 : Nat) (ks val : PyStr) (s : PyStr) : PyStr :=
  subAllF k0 ks val s.length false s

/-- Whether the pattern for `k0 :: ks` matches anywhere in the text (same
boundary conditions as `subAllF`). -/
def hasMatchFrom (k0 : Nat) (ks : PyStr) : Bool → PyStr → Bool
  | _, [] => false
  | pw, c :: cs =>
    (match matchPrefixCI (k0 :: ks) (c :: cs) with
     | some rest =>
       decide (pw ≠ isWordC c) &&
         decide (isWordC (((c :: cs).take (k0 :: ks).length).getLastD 0) ≠ headWordB rest)
     | none => false) ||
    hasMatchFrom k0 ks (isWordC c) cs

/-- `PlainEnglishTranslator._apply_dictionary_translations`. -/
def applyDictionaryTranslations (text : PyStr) : PyStr :=
  sortedJargon.foldl
    (fun acc kv =>
      match kv.1 with
      | [] => acc
      | k0 :: ks => subAll k0 ks kv.2 acc)
    text

/-- No jargon key matches anywhere in `s` (word-bounded, case-insensitive). -/
def noJargonMatch (s : PyStr) : Bool :=
  sortedJargon.all (fun kv =>
    match kv.1 with
    | [] => true
    | k0 :: ks => !(hasMatchFrom k0 ks false s))

lemma subAllF_id_of_no_match (k0 : Nat) (ks val : PyStr) :
    ∀ (fuel : Nat) (pw : Bool) (s : PyStr), hasMatchFrom k0 ks pw s = false →
      subAllF k0 ks val fuel pw s = s := by
  intro fuel
  induction fuel with
  | zero => intro pw s _; rfl
  | succ n ih =>
    intro pw s h
    cases s with
    | nil => rfl
    | cons c cs =>
      rw [hasMatchFrom] at h
      simp only [Bool.or_eq_false_iff] at h
      obtain ⟨h1, h2⟩ := h
      cases hm : matchPrefixCI (k0 :: ks) (c :: cs) with
      | none =>
        simp only [subAllF, hm]
        rw [ih (isWordC c) cs h2]
      | some rest =>
        rw [hm] at h1
        simp only [Bool.and_eq_false_iff, decide_eq_false_iff_not, not_not] at h1
        have hcond : ¬(pw ≠ isWordC c ∧
            isWordC (((c :: cs).take (k0 :: ks).length).getLastD 0) ≠ headWordB rest) := by
          rcases h1 with h1 | h1
          · intro hc; exact hc.1 h1
          · intro hc; exact hc.2 h1
        simp only [subAllF, hm]
        rw [if_neg hcond, ih (isWordC c) cs h2]

lemma foldl_subAll_id (terms : List (PyStr × PyStr)) (s : PyStr)
    (h : ∀ kv ∈ terms, ∀ k0 ks, kv.1 = k0 :: ks → hasMatchFrom k0 ks false s = false) :
    terms.foldl
      (fun acc kv =>
        match kv.1 with
        | [] => acc
        | k0 :: ks => subAll k0 ks kv.2 acc)
      s = s := by
  induction terms with
  | nil => rfl
  | cons kv kvs ih =>
    rw [List.foldl_cons]
    have hstep :
        (match kv.1 with
         | [] => s
         | k0 :: ks => subAll k0 ks kv.2 s) = s := by
      cases hk : kv.1 with
      | nil => rfl
      | cons k0 ks =>
        exact subAllF_id_of_no_match k0 ks kv.2 s.length false s
          (h kv (List.mem_cons_self _ _) k0 ks hk)
    rw [hstep]
    exact ih (fun x hx => h x (List.mem_cons_of_mem _ hx))

lemma applyDict_id_of_noJargonMatch (s : PyStr) (h : noJargonMatch s = true) :
    applyDictionaryTranslations s = s := by
  unfold noJargonMatch at h
  rw [List.all_eq_true] at h
  unfold applyDictionaryTranslations
  refine foldl_subAll_id _ s ?_
  intro kv hkv k0 ks hk
  have := h kv hkv
  rw [hk] at this
  simpa using this

set_option maxRecDepth 40000

/-- C6 counterexample: the dictionary pass is NOT idempotent.  On
`"diabetes mellitus mellitus"` the first pass rewrites the leading
`"diabetes mellitus"` to `"diabetes"`, which rejoins with the remaining
`" mellitus"` to re-form the key, so a second pass rewrites again. -/
theorem dictionary_pass_not_idempotent :
    applyDictionaryTranslations (pys "diabetes mellitus mellitus") =
        pys "diabetes mellitus" ∧
    applyDictionaryTranslations (applyDictionaryTranslations
        (pys "diabetes mellitus mellitus")) = pys "diabetes" ∧
    applyDictionaryTranslations (applyDictionaryTranslations
        (pys "diabetes mellitus mellitus")) ≠
      applyDictionaryTranslations (pys "diabetes mellitus mellitus") := by
  refine ⟨by decide, by decide, by decide⟩

/-- C6 amended: the dictionary pass is idempotent on every input whose
once-translated output contains no further (word-bounded, case-insensitive)
occurrence of a jargon key; it is not idempotent in general, because a
substitution output can rejoin with adjacent text to re-form a key. -/
theorem dict_pass_idem_of_no_rematch (x : PyStr)
    (h : noJargonMatch (applyDictionaryTranslations x) = true) :
    applyDictionaryTranslations (applyDictionaryTranslations x) =
      applyDictionaryTranslations x :=
  applyDict_id_of_noJargonMatch _ h

/-- Witness for the amended C6 at a concrete input. -/
theorem dict_pass_idem_of_no_rematch_witness :
    noJargonMatch (applyDictionaryTranslations (pys "take two pills daily")) = true ∧
    applyDictionaryTranslations (applyDictionaryTranslations
        (pys "take two pills daily")) =
      applyDictionaryTranslations (pys "take two pills daily") :=
  ⟨by decide, dict_pass_idem_of_no_rematch (pys "take two pills daily") (by decide)⟩

/-! ## A matcher for the regular-expression fragment used by the code

Patterns appearing in the sources are sequences of literals, non-capturing
alternations of literals, optional literals (`\??`), lazy dot groups
(`(.+?)`), greedy letter groups (`([a-zA-Z]+)`), `.*`, `\d+`, `\s+`,
`\s*` and single character classes.  Matching is case-insensitive (every
call site either passes lowered text or the `re.IGNORECASE` flag; pattern
literals are written in lower case), except the `[A-Z]` class which only
occurs in case-sensitive patterns.  Backtracking order follows Python's
`re`: alternatives first-to-last, greedy elements longest-first, lazy
elements shortest-first, and `re.search` tries start positions
left-to-right. -/

inductive RTok where
  | lit (l : PyStr)
  | alts (ls : List PyStr)
  | optLit (l : PyStr)
  | grp
  | alphaGrp
  | star
  | digits
  | ws
  | wsStar
  | oneC (p : Nat → Bool)

/-- A match outcome: the captured groups and the text after the match. -/
abbrev MRes := Option (List PyStr × PyStr)

def altsGo (k : PyStr → MRes) : List PyStr → PyStr → MRes
  | [], _ => none
  | l :: ls, s =>
    match matchPrefixCI l s with
    | some s' =>
      match k s' with
      | some r => some r
      | none => altsGo k ls s
    | none => altsGo k ls s

def grpGo (k : PyStr → MRes) : PyStr → PyStr → MRes
  | _, [] => none
  | acc, c :: cs =>
    if c = 10 then none
    else
      match k cs with
      | some (gs, rem) => some ((acc ++ [c]) :: gs, rem)
      | none => grpGo k (acc ++ [c]) cs

def alphaTry (k : PyStr → MRes) (s : PyStr) : Nat → MRes
  | 0 => none
  | n + 1 =>
    match k (s.drop (n + 1)) with
    | some (gs, rem) => some (s.take (n + 1) :: gs, rem)
    | none => alphaTry k s n

def plusTry (k : PyStr → MRes) (s : PyStr) : Nat → MRes
  | 0 => none
  | n + 1 =>
    match k (s.drop (n + 1)) with
    | some r => some r
    | none => plusTry k s n

def starTry (k : PyStr → MRes) (s : PyStr) : Nat → MRes
  | 0 => k s
  | n + 1 =>
    match k (s.drop (n + 1)) with
    | some r => some r
    | none => starTry k s n

def mtch : List RTok → PyStr → MRes
  | [], s => some ([], s)
  | .lit l :: rest, s =>
    match matchPrefixCI l s with
    | some s' => mtch rest s'
    | none => none
  | .alts ls :: rest, s => altsGo (mtch rest) ls s
  | .optLit l :: rest, s =>
    (match matchPrefixCI l s with
     | some s' =>
       match mtch rest s' with
       | some r => some r
       | none => mtch rest s
     | none => mtch rest s)
  | .grp :: rest, s => grpGo (mtch rest) [] s
  | .alphaGrp :: rest, s => alphaTry (mtch rest) s (s.takeWhile (fun c => isAlphaC c)).length
  | .star :: rest, s => starTry (mtch rest) s (s.takeWhile (fun c => c ≠ 10)).length
  | .digits :: rest, s => plusTry (mtch rest) s (s.takeWhile (fun c => isDigitC c)).length
  | .ws :: rest, s => plusTry (mtch rest) s (s.takeWhile (fun c => isSpaceC c)).length
  | .wsStar :: rest, s => starTry (mtch rest) s (s.takeWhile (fun c => isSpaceC c)).length
  | .oneC p :: rest, s =>
    match s with
    | [] => none
    | c :: cs => if p c then mtch rest cs else none

/-- `re.search`: leftmost matching start position. -/
def rsearch (toks : List RTok) : PyStr → MRes
  | [] => mtch toks []
  | c :: cs =>
    match mtch toks (c :: cs) with
    | some r => some r
    | none => rsearch toks cs

/-- Whether `re.search` succeeds. -/
def rsearchB (toks : List RTok) (s : PyStr) : Bool := (rsearch toks s).isSome

/-- `re.findall`: non-overlapping matches left to right, each contributing
its tuple of captured groups.  Every pattern used with `findall` consumes
at least one character per match, so `fuel = s.length + 1` suffices. -/
def rfindall (toks : List RTok) : Nat → PyStr → List (List PyStr)
  | 0, _ => []
  | fuel + 1, s =>
    match rsearch toks s with
    | some (gs, rem) => gs :: rfindall toks fuel rem
    | none => []

/-! ## Safety filter (`safety.py`) -/

/-- `SafetyFilter._get_dangerous_response` (after its `.strip()`). -/
def dangerousResponseMsg : PyStr :=
  pys "I cannot and will not provide information that could be used for self-harm or illegal purposes. \n\nIf you're having thoughts of self-harm, please reach out for help:\nâ€¢ National Suicide Prevention Lifeline: 988\nâ€¢ Crisis Text Line: Text HOME to 741741\nâ€¢ Emergency Services: 911\n\nFor legitimate medical questions, please consult with a healthcare professional or rephrase your question to focus on general drug information."

/-- `SafetyFilter._get_emergency_response` (after its `.strip()`). -/
def emergencyResponseMsg : PyStr :=
  pys "âš ï¸ MEDICAL EMERGENCY WARNING âš ï¸\n\nIf this is a medical emergency:\nâ€¢ Call 911 immediately\nâ€¢ Contact Poison Control: 1-800-222-1222\nâ€¢ Go to your nearest emergency room\n\nI cannot provide emergency medical advice. This appears to be an urgent situation that requires immediate professional medical attention.\n\nFor non-emergency questions about medications, I'm here to help with general drug information from FDA sources."

/-- `SafetyFilter._get_diagnosis_response` (after its `.strip()`). -/
def diagnosisResponseMsg : PyStr :=
  pys "I cannot provide medical diagnoses or determine what medical conditions you may have. Only qualified healthcare professionals can diagnose medical conditions through proper examination and testing.\n\nIf you have health concerns:\nâ€¢ Consult your doctor or healthcare provider\nâ€¢ Call a nurse hotline if available through your insurance\nâ€¢ Visit an urgent care center for non-emergency concerns\nâ€¢ Go to the emergency room for serious symptoms\n\nI can help you understand general information about medications and their FDA-approved uses, but this should not be used for self-diagnosis."

/-- `SafetyDisclaimer.get_general_disclaimer` (after its `.strip()`). -/
def generalDisclaimer : PyStr :=
  pys "âš ï¸ IMPORTANT DISCLAIMER: This information is for educational purposes only and is not medical advice. Always consult your healthcare provider before starting, stopping, or changing any medication. This information comes from FDA sources but should not replace professional medical consultation."

/-- `SafetyDisclaimer.get_dosage_disclaimer` (after its `.strip()`). -/
def dosageDisclaimer : PyStr :=
  pys "âš ï¸ DOSAGE WARNING: I cannot provide specific dosing recommendations. Medication dosages must be determined by a licensed healthcare provider based on your individual medical history, current health status, other medications, and specific condition. Taking incorrect doses can be dangerous. Always follow your doctor's instructions and prescription labels."

/-- `SafetyDisclaimer.get_safety_disclaimer` (after its `.strip()`). -/
def safetyDisclaimer : PyStr :=
  pys "âš ï¸ SAFETY INFORMATION: This information about side effects, interactions, and contraindications is from FDA sources for educational purposes. Your individual risk factors may differ. Always inform your healthcare provider about all medications, supplements, and health conditions. Seek immediate medical attention if you experience serious adverse reactions."

/-- `SafetyDisclaimer.get_emergency_disclaimer` (after its `.strip()`). -/
def emergencyDisclaimer : PyStr :=
  pys "ðŸš¨ EMERGENCY DISCLAIMER: If you are experiencing a medical emergency, call 911 immediately. Do not rely on this chatbot for emergency medical advice. Contact emergency services or poison control (1-800-222-1222) for urgent situations."

/-- `QueryType`. -/
inductive QueryType where
  | general_info | dosage | side_effects | interactions
  | contraindications | emergency | diagnosis | dangerous
  deriving Repr, DecidableEq

/-- Result dictionary of `SafetyFilter.check_query`. -/
structure SafetyCheck where
  is_safe : Bool
  query_type : QueryType
  message : PyStr
  confidence : ℚ
  deriving Repr, DecidableEq

/-- `SafetyFilter.dangerous_patterns`, matched against the lowered query:
`r"how much .* to (die|kill|overdose)"` plus literal substrings. -/
def dangerousHit (q : PyStr) : Bool :=
  rsearchB [.lit (pys "how much "), .star, .lit (pys " to "),
            .alts [pys "die", pys "kill", pys "overdose"]] q ||
  [pys "lethal dose", pys "suicide", pys "self harm", pys "how to get high",
   pys "recreational use", pys "abuse", pys "illegal"].any
    (fun p => containsSub p q)

/-- `SafetyFilter.emergency_patterns` (all literal substrings). -/
def emergencyHit (q : PyStr) : Bool :=
  [pys "overdose", pys "poisoning", pys "emergency", pys "urgent",
   pys "severe reaction", pys "allergic reaction", pys "cant breathe",
   pys "chest pain", pys "heart attack", pys "stroke"].any
    (fun p => containsSub p q)

/-- `SafetyFilter.diagnosis_patterns` (all literal substrings). -/
def diagnosisHit (q : PyStr) : Bool :=
  [pys "do i have", pys "am i sick", pys "what's wrong with me",
   pys "diagnose", pys "what disease", pys "what condition"].any
    (fun p => containsSub p q)

/-- `SafetyFilter.dosage_patterns`, used by `_classify_safe_query`. -/
def safetyDosageHit (q : PyStr) : Bool :=
  rsearchB [.lit (pys "how much "), .star, .lit (pys " should i take")] q ||
  [pys "what dose", pys "dosage for", pys "how many pills",
   pys "mg per day", pys "frequency", pys "how often"].any
    (fun p => containsSub p q)

/-- `SafetyFilter._classify_safe_query` (takes the lowered query). -/
def classifySafeQuery (q : PyStr) : QueryType :=
  if safetyDosageHit q then .dosage
  else if [pys "side effect", pys "adverse", pys "reaction"].any
      (fun w => containsSub w q) then .side_effects
  else if [pys "interaction", pys "combine", pys "together"].any
      (fun w => containsSub w q) then .interactions
  else if [pys "contraindication", pys "should not", pys "avoid"].any
      (fun w => containsSub w q) then .contraindications
  else .general_info

/-- `SafetyFilter.check_query`. -/
def checkQuery (query : PyStr) : SafetyCheck :=
  let q := lowerS query
  if dangerousHit q then
    ⟨false, .dangerous, dangerousResponseMsg, mkRat 95 100⟩
  else if emergencyHit q then
    ⟨false, .emergency, emergencyResponseMsg, mkRat 9 10⟩
  else if diagnosisHit q then
    ⟨false, .diagnosis, diagnosisResponseMsg, mkRat 85 100⟩
  else
    ⟨true, classifySafeQuery q, pys "Query is safe to process", mkRat 8 10⟩

/-- `SafetyDisclaimer.get_disclaimer_for_query` with `query_type=None`
(the only way the pipeline calls it): re-classifies the query and picks
the disclaimer for the resulting type. -/
def getDisclaimerForQuery (query : PyStr) : PyStr :=
  match (checkQuery query).query_type with
  | .dosage => dosageDisclaimer
  | .side_effects => safetyDisclaimer
  | .interactions => safetyDisclaimer
  | .contraindications => safetyDisclaimer
  | _ => generalDisclaimer

/-! ## `difflib` (used by the normalizer's fuzzy matching)

`SequenceMatcher` with no junk (the inputs here are far below the
autojunk threshold of 200 elements): the total matched count follows the
Ratcliff-Obershelp recursion on the longest matching block.  With no junk
the four junk-extension `while` loops of CPython's `find_longest_match`
never fire (the scanned maximum is already maximal in both directions),
so they are omitted.  Ratios are exact rationals here where CPython uses
binary floats; the cutoff comparisons below are far from any rounding
boundary for the string lengths involved. -/

/-- Length of the common run of `a`/`b` ENDING at absolute positions
`i`/`j`, not reaching below `alo`/`blo`.  `fuel ≥ i + 1` suffices. -/
def runEnd (a b : PyStr) (alo blo : Nat) : Nat → Nat → Nat → Nat
  | 0, _, _ => 0
  | fuel + 1, i, j =>
    match a.get? i, b.get? j with
    | some x, some y =>
      if x = y then (if alo < i ∧ blo < j then 1 + runEnd a b alo blo fuel (i - 1) (j - 1) else 1)
      else 0
    | _, _ => 0

/-- `SequenceMatcher.find_longest_match` on the window
`[alo, ahi) × [blo, bhi)`: the first block of maximal length in scan
order (`i` ascending, then `j` ascending), as `(besti, bestj, bestk)`. -/
def flm (a b : PyStr) (alo ahi blo bhi : Nat) : Nat × Nat × Nat :=
  ((List.range (ahi - alo)).map (· + alo)).foldl
    (fun st i =>
      ((List.range (bhi - blo)).map (· + blo)).foldl
        (fun st j =>
          let k := runEnd a b alo blo (i + 1) i j
          if k > st.2.2 then (i + 1 - k, j + 1 - k, k) else st)
        st)
    (alo, blo, 0)

/-- Total size of the matching blocks (`get_matching_blocks` recursion).
`fuel = a.length + b.length + 1` always suffices. -/
def sumMatches (a b : PyStr) : Nat → Nat → Nat → Nat → Nat → Nat
  | 0, _, _, _, _ => 0
  | fuel + 1, alo, ahi, blo, bhi =>
    let r := flm a b alo ahi blo bhi
    if r.2.2 = 0 then 0
    else r.2.2 + sumMatches a b fuel alo r.1 blo r.2.1 +
         sumMatches a b fuel (r.1 + r.2.2) ahi (r.2.1 + r.2.2) bhi

/-- `SequenceMatcher(None, a, b).ratio()`. -/
def smRatio (a b : PyStr) : ℚ :=
  mkRat (2 * (sumMatches a b (a.length + b.length + 1) 0 a.length 0 b.length : Int))
    (a.length + b.length)

/-- Stable insertion, descending by the rational score (ties keep the
earlier element first), matching `heapq.nlargest`'s stable behaviour. -/
def insertByRatio (x : ℚ × PyStr) : List (ℚ × PyStr) → List (ℚ × PyStr)
  | [] => [x]
  | y :: ys => if x.1 ≥ y.1 then x :: y :: ys else y :: insertByRatio x ys

/-- `difflib.get_close_matches(word, possibilities, n, cutoff)`.  The
quick-ratio pre-filters of CPython are upper bounds of `ratio()`, so
filtering by `ratio() >= cutoff` alone selects the same elements. -/
def getCloseMatches (word : PyStr) (poss : List PyStr) (n : Nat) (cutoff : ℚ) :
    List PyStr :=
  let scored := poss.filterMap (fun x =>
    let r := smRatio x word
    if cutoff ≤ r then some (r, x) else none)
  ((scored.foldr insertByRatio []).take n).map Prod.snd

/-- Append-with-dedup loop of `DrugNameNormalizer.suggest_corrections`. -/
def buildSuggestions : List PyStr → List PyStr → List PyStr
  | [], acc => acc
  | m :: ms, acc =>
    let nz := normalizeDrugName m
    if nz ∈ acc then buildSuggestions ms acc else buildSuggestions ms (acc ++ [nz])

/-- `DrugNameNormalizer.suggest_corrections` (default `limit=3`). -/
def suggestCorrections (drug_name : PyStr) (limit : Nat := 3) : List PyStr :=
  if drug_name = [] then []
  else
    let cleaned := stripS (lowerS drug_name)
    let found := getCloseMatches cleaned allKnownDrugs limit (mkRat 3 5)
    (buildSuggestions found []).take limit

/-- Maximal `\w+` runs of a string (with `fuel = s.length + 1`). -/
def wordRunsF : Nat → PyStr → List PyStr
  | 0, _ => []
  | _ + 1, [] => []
  | fuel + 1, c :: cs =>
    if isWordC c then
      ((c :: cs).takeWhile (fun d => isWordC d)) ::
        wordRunsF fuel ((c :: cs).dropWhile (fun d => isWordC d))
    else wordRunsF fuel cs

/-- `re.findall(r'\b[a-zA-Z]{N,}\b', s)`: maximal word runs that are pure
letters of length at least `minLen`. -/
def alphaWords (minLen : Nat) (s : PyStr) : List PyStr :=
  (wordRunsF (s.length + 1) s).filter
    (fun r => r.all (fun c => isAlphaC c) && decide (minLen ≤ r.length))

/-- `DrugNameNormalizer.is_valid_drug_name`. -/
def isValidDrugName (drug_name : PyStr) : Bool :=
  if drug_name = [] || drug_name.length < 3 then false
  else
    let cleaned := stripS (lowerS drug_name)
    if cleaned ∈ allKnownDrugs then true
    else if [pys "ine", pys "ol", pys "an", pys "il", pys "one", pys "ate",
             pys "ide"].any (fun suf => decide (suf <:+ cleaned)) then true
    else if decide (6 ≤ cleaned.length) && cleaned.all (fun c => isAlphaC c) then true
    else false

/-- The stop-word set of `extract_and_normalize` (priority 3). -/
def normalizerExcludeWords : List PyStr :=
  [pys "what", pys "does", pys "the", pys "side", pys "effects", pys "uses",
   pys "about", pys "is", pys "are", pys "tell", pys "me", pys "how",
   pys "can", pys "will", pys "should", pys "would", pys "could", pys "have",
   pys "that", pys "this", pys "they", pys "them", pys "with", pys "from",
   pys "take", pys "taking", pys "medication", pys "medicine", pys "drug",
   pys "pill", pys "tablet", pys "used", pys "help", pys "love", pys "like",
   pys "hate", pys "need", pys "want", pys "times", pys "day", pys "daily",
   pys "much", pys "many", pys "often", pys "long", pys "safe",
   pys "dangerous", pys "good", pys "bad"]

/-- Strip the first matching command prefix (then `.strip()`), as in
`extract_and_normalize`. -/
def stripCmdPrefix (t : PyStr) : PyStr :=
  match [pys "/explain", pys "/compare", pys "/interactions", pys "/dosage",
         pys "explain", pys "compare"].find? (fun p => p.isPrefixOf t) with
  | some p => stripS (t.drop p.length)
  | none => t

/-- Priority-2 loop of `extract_and_normalize`: first word of length ≥ 4
with a fuzzy match at cutoff 0.8. -/
def normPrio2 : List PyStr → Option (PyStr × List PyStr)
  | [] => none
  | w :: ws =>
    if 4 ≤ w.length then
      match getCloseMatches w allKnownDrugs 1 (mkRat 4 5) with
      | m :: _ => some (normalizeDrugName m, suggestCorrections w)
      | [] => normPrio2 ws
    else normPrio2 ws

/-- Priority-3 inner loop: first regex match that survives the stop-word,
length and drug-likeness filters. -/
def normPrio3Try : List PyStr → Option (PyStr × List PyStr)
  | [] => none
  | m :: ms =>
    let cleaned := lowerS (stripS m)
    if cleaned ∉ normalizerExcludeWords ∧ 4 ≤ cleaned.length then
      if isValidDrugName cleaned then
        some (normalizeDrugName m, suggestCorrections m)
      else normPrio3Try ms
    else normPrio3Try ms

/-- The priority-3 patterns of `extract_and_normalize`, applied with
`re.IGNORECASE` to the raw text; the last pattern
`r"\b([a-zA-Z]{5,})\b"` is handled by `alphaWords`. -/
def normPrio3Matches (text : PyStr) : List (List PyStr) :=
  [[RTok.alts [pys "about", pys "of", pys "is", pys "tell me about", pys "what is"],
    RTok.ws, RTok.alphaGrp],
   [RTok.alphaGrp, RTok.ws,
    RTok.alts [pys "side effects", pys "uses", pys "dosage", pys "contraindications"]],
   [RTok.alts [pys "what does", pys "what is"], RTok.ws, RTok.alphaGrp],
   [RTok.alts [pys "does", pys "do"], RTok.ws, RTok.alphaGrp, RTok.ws,
    RTok.alts [pys "do", pys "does", pys "work"]]].map
    (fun toks => (rfindall toks (text.length + 1) text).filterMap List.head?)
  ++ [alphaWords 5 text]

/-- `DrugNameNormalizer.extract_and_normalize`. -/
def extractAndNormalize (text : PyStr) : PyStr × List PyStr :=
  let cleaned_text := stripCmdPrefix (stripS (lowerS text))
  let words := alphaWords 3 cleaned_text
  match words.find? (fun w => w ∈ allKnownDrugs) with
  | some w => (normalizeDrugName w, suggestCorrections w)
  | none =>
    match normPrio2 words with
    | some r => r
    | none =>
      match (normPrio3Matches text).findSome? normPrio3Try with
      | some r => r
      | none => ([], [])

/-! ## Environment for the external collaborators, response records -/

/-- Metadata of a vector-store search hit (`result["metadata"]`,
accessed with `.get` and defaults).  `sectionName` models the
`"section"` key (`section` is reserved in Lean). -/
structure SMeta where
  drug_name : Option PyStr := none
  sectionName : Option PyStr := none
  deriving Repr, DecidableEq

/-- One vector-store search hit. -/
structure SResult where
  document : PyStr
  metadata : SMeta
  distance : Option ℚ := none
  deriving Repr, DecidableEq

/-- One entry of a response's `sources` list
(`_extract_sources_from_context` builds dictionaries with these keys). -/
structure SourceInfo where
  drug : Option PyStr := none
  sectionName : Option PyStr := none
  url : Option PyStr := none
  last_updated : Option PyStr := none
  deriving Repr, DecidableEq

/-- The response dictionary returned by `query` and its helpers; keys that
are absent on some paths are `Option` fields defaulting to `none`. -/
structure Response where
  response : PyStr
  safety_warning : Bool
  confidence : PyStr
  sources : List SourceInfo
  disclaimer : PyStr
  query : Option PyStr := none
  multi_drug_count : Option Nat := none
  error : Option PyStr := none
  drug_name : Option PyStr := none
  deriving Repr, DecidableEq

/-- Oracles for the external collaborators (spec section 6).  A raising
call is an `Except.error` carrying `str(e)`.  The vector store's state
can change once (an on-demand drug addition), so `search` also takes
whether that has happened. -/
structure Env where
  search : Bool → PyStr → Except PyStr (List SResult)
  listAllDrugs : List PyStr
  fetchBody : PyStr → Except PyStr Bool
  llm : PyStr → Except PyStr PyStr
  translatorLLM : PyStr → Except PyStr PyStr

/-! ## `PlainEnglishTranslator.translate_response` -/

/-- Count of word runs (of the lowered text) ending in the given suffix
with at least one preceding word character (`re.findall(r'\b\w+SUF\b')`). -/
def suffixWordCount (suf : PyStr) (runs : List PyStr) : Nat :=
  (runs.filter (fun r => decide (suf <:+ r) && decide (suf.length < r.length))).length

/-- Count of word-bounded occurrences of a literal
(`re.findall(r'\bLIT\b', s, re.IGNORECASE)`), same boundary conventions
as `subAllF`; `fuel = s.length + 1`. -/
def countBoundedLit (lit : PyStr) : Nat → Bool → PyStr → Nat
  | 0, _, _ => 0
  | _ + 1, _, [] => 0
  | fuel + 1, pw, c :: cs =>
    match matchPrefixCI lit (c :: cs) with
    | some rest =>
      if pw ≠ isWordC c ∧
         isWordC (((c :: cs).take lit.length).getLastD 0) ≠ headWordB rest then
        1 + countBoundedLit lit fuel
          (isWordC (((c :: cs).take lit.length).getLastD 0)) rest
      else countBoundedLit lit fuel (isWordC c) cs
    | none => countBoundedLit lit fuel (isWordC c) cs

/-- `PlainEnglishTranslator._contains_complex_medical_terms`'s match count:
morphological suffixes, the two dosing literals and `CYP\d+` words. -/
def complexCount (text : PyStr) : Nat :=
  let t := lowerS text
  let runs := wordRunsF (t.length + 1) t
  ([pys "ology", pys "itis", pys "osis", pys "pathy", pys "trophy",
    pys "genic", pys "static"].map (fun suf => suffixWordCount suf runs)).sum +
  countBoundedLit (pys "mcg/kg") (t.length + 1) false t +
  countBoundedLit (pys "μg/ml") (t.length + 1) false t +
  (runs.filter (fun r =>
    (pys "cyp").isPrefixOf r && decide (3 < r.length) &&
      (r.drop 3).all (fun c => isDigitC c))).length

/-- `PlainEnglishTranslator.translate_response`: dictionary pass, then an
LLM rewrite only when more than 2 complex terms remain; an exception from
the LLM call is caught inside this method and degrades to the
dictionary-only result. -/
def translateResponse (env : Env) (medical_response : PyStr) : PyStr :=
  let simplified := applyDictionaryTranslations medical_response
  if 2 < complexCount simplified then
    match env.translatorLLM simplified with
    | .ok t => stripS t
    | .error _ => applyDictionaryTranslations medical_response
  else simplified

/-! ## Dosage advisor (`dosage_advisor.py`) -/

/-- One entry of `DosageAdvisor.general_dosage_info`. -/
structure DosageInfo where
  max_daily : PyStr
  frequency : PyStr
  warnings : List PyStr
  daily_use_note : PyStr
  deriving Repr, DecidableEq

/-- `DosageAdvisor.general_dosage_info`. -/
def generalDosageInfo : List (PyStr × DosageInfo) :=
  [(pys "acetaminophen",
    { max_daily := pys "3000-4000mg for adults"
      frequency := pys "Every 4-6 hours as needed"
      warnings :=
        [pys "Do not exceed 4000mg (4g) in 24 hours",
         pys "Taking more than recommended can cause serious liver damage",
         pys "Avoid alcohol while taking acetaminophen",
         pys "Check other medications for acetaminophen content"]
      daily_use_note := pys "Not recommended for daily long-term use without medical supervision" }),
   (pys "ibuprofen",
    { max_daily := pys "1200-3200mg for adults (with food)"
      frequency := pys "Every 6-8 hours as needed"
      warnings :=
        [pys "Take with food to reduce stomach irritation",
         pys "Do not exceed 3200mg in 24 hours without medical supervision",
         pys "Can increase risk of heart attack, stroke, and stomach bleeding",
         pys "Not recommended during pregnancy (especially third trimester)"]
      daily_use_note := pys "Long-term daily use requires medical monitoring for cardiovascular and GI risks" }),
   (pys "aspirin",
    { max_daily := pys "650-1000mg every 4 hours (max 4000mg/day)"
      frequency := pys "Every 4-6 hours as needed"
      warnings :=
        [pys "Can cause stomach bleeding",
         pys "Not for children/teens with viral infections (Reye's syndrome risk)",
         pys "Increases bleeding risk",
         pys "Can interact with blood thinners"]
      daily_use_note := pys "Low-dose daily aspirin for heart protection requires medical supervision" }),
   (pys "semaglutide",
    { max_daily := pys "ONCE WEEKLY injection only - NOT daily"
      frequency := pys "Once per week subcutaneous injection"
      warnings :=
        [pys "PRESCRIPTION ONLY - requires doctor supervision",
         pys "Can cause severe nausea, vomiting, and diarrhea",
         pys "Risk of thyroid tumors and pancreatitis",
         pys "Can cause hypoglycemia when combined with other diabetes medications",
         pys "NEVER take multiple doses in one day",
         pys "DANGEROUS if used for weight loss without medical supervision"]
      daily_use_note := pys "CRITICAL: This is a WEEKLY medication. Taking daily or multiple times per day is EXTREMELY DANGEROUS and can cause severe hypoglycemia, hospitalization, or death." })]

/-- `DosageAdvisor.is_dosage_query` (patterns on the lowered question). -/
def isDosageQuery (question : PyStr) : Bool :=
  let q := lowerS question
  [[RTok.lit (pys "can i take "), RTok.star, RTok.lit (pys " daily")],
   [RTok.lit (pys "how often "), RTok.star, RTok.lit (pys " take")],
   [RTok.lit (pys "how much "), RTok.star, RTok.lit (pys " per day")],
   [RTok.lit (pys "daily dose")],
   [RTok.lit (pys "safe to take "), RTok.star, RTok.lit (pys " every day")],
   [RTok.lit (pys "long term use")],
   [RTok.lit (pys "chronic use")],
   [RTok.lit (pys "daily usage")],
   [RTok.lit (pys "take "), RTok.star, RTok.lit (pys " regularly")],
   [RTok.lit (pys "take "), RTok.star, RTok.lit (pys " "), RTok.digits,
    RTok.lit (pys " times")],
   [RTok.digits, RTok.lit (pys " times "), RTok.star, RTok.lit (pys " day")],
   [RTok.lit (pys "take "), RTok.star, RTok.lit (pys " multiple times")],
   [RTok.lit (pys "overdose")],
   [RTok.lit (pys "too much")],
   [RTok.lit (pys "maximum dose")]].any (fun toks => rsearchB toks q)
/-- Template pieces of `DosageAdvisor._create_specific_dosage_response`
(the f-string split at its interpolation points). -/
def specificDosageP1 : PyStr := pys "\n**⚠️ IMPORTANT: This is general information only. Always consult your healthcare provider before starting any medication regimen.**\n\n**General FDA-approved dosage information for "

def specificDosageP2 : PyStr := pys ":**\n\n🔹 **Typical Adult Dose**: "

def specificDosageP3 : PyStr := pys "\n🔹 **Frequency**: "

def specificDosageP4 : PyStr := pys "\n\n**⚠️ Important Warnings:**\n"

def specificDosageP5 : PyStr := pys "\n**📋 Regarding Daily Use:**\n"

def specificDosageP6 : PyStr := pys "\n\n**🏥 You Should Consult Your Doctor If:**\n• You need pain relief for more than 10 days\n• You have chronic conditions (heart, liver, kidney disease)\n• You take other medications\n• You experience side effects\n• You're pregnant or breastfeeding\n\n**🚨 REMEMBER:** Self-medication can be dangerous. This information is for educational purposes only and does not replace professional medical advice.\n"

/-- Template pieces of `DosageAdvisor._create_unknown_drug_dosage_response`. -/
def unknownDosageP1 : PyStr := pys "\n**⚠️ DOSAGE SAFETY WARNING**\n\nI cannot provide specific dosage information for "

def unknownDosageP2 : PyStr := pys " as this requires personalized medical assessment.\n\n**🏥 You Must Consult:**\n• Your prescribing doctor\n• A licensed pharmacist  \n• Call your pharmacy's consultation line\n• Use official prescribing information\n\n**❌ Never:**\n• Guess dosages based on internet information\n• Take medications without proper guidance\n• Exceed recommended doses\n• Share medications with others\n\n**🔍 For accurate dosage information:**\n1. Check the medication label/package insert\n2. Call your pharmacy\n3. Consult your healthcare provider\n4. Use official medical resources like FDA.gov\n"

/-- Body of `DosageAdvisor._create_general_dosage_response`. -/
def generalDosageBody : PyStr := pys "\n**⚠️ MEDICATION DOSAGE SAFETY**\n\nFor any medication dosage questions, you should **always consult:**\n\n**🏥 Primary Sources:**\n• Your prescribing doctor\n• Licensed pharmacist\n• Official medication packaging/insert\n• FDA-approved prescribing information\n\n**📱 Quick Help:**\n• Call your pharmacy's consultation line\n• Use your insurance's nurse hotline\n• Contact your doctor's office\n\n**❌ Important Reminders:**\n• Never guess dosages\n• Don't rely on internet forums\n• Avoid sharing medications\n• Don't exceed package directions without medical supervision\n\n**🚨 For emergencies or overdose concerns, call Poison Control: 1-800-222-1222**\n"

/-- `DosageAdvisor._get_dosage_disclaimer` (after `.strip()`). -/
def dosageAdvisorDisclaimer : PyStr := pys "🚨 DOSAGE DISCLAIMER: Medication dosages must be determined by licensed healthcare providers based on your individual medical history, current health status, other medications, age, weight, and specific condition. This information is for educational purposes only and does not constitute medical advice. Always follow your doctor's instructions and prescription labels."

/-- `', '.join(l)`. -/
def joinComma : List PyStr → PyStr
  | [] => []
  | [x] => x
  | x :: y :: t => x ++ pys ", " ++ joinComma (y :: t)

/-- `DosageAdvisor._create_specific_dosage_response` (the translator is
always available in the pipeline, so the response is translated). -/
def createSpecificDosageResponse (env : Env) (drug_name : PyStr)
    (info : DosageInfo) (question : PyStr) : Response :=
  let raw :=
    specificDosageP1 ++ drug_name ++ specificDosageP2 ++ info.max_daily ++
    specificDosageP3 ++ info.frequency ++ specificDosageP4 ++
    (info.warnings.foldl (fun acc w => acc ++ pys "• " ++ w ++ pys "\n") []) ++
    specificDosageP5 ++ info.daily_use_note ++ specificDosageP6
  { response := translateResponse env (stripS raw)
    safety_warning := true
    confidence := pys "Medium"
    sources := [{ drug := some drug_name,
                  sectionName := some (pys "General Dosage Information"),
                  url := some (pys "FDA Guidelines") }]
    disclaimer := dosageAdvisorDisclaimer
    query := some question }

/-- `DosageAdvisor._create_unknown_drug_dosage_response`. -/
def createUnknownDrugDosageResponse (env : Env) (drug_name : PyStr)
    (suggestions : List PyStr) : Response :=
  let raw := unknownDosageP1 ++ drug_name ++ unknownDosageP2 ++
    (if suggestions ≠ [] then
      pys "\n\n🤔 **Did you mean:** " ++ joinComma suggestions ++ pys "?"
     else [])
  { response := translateResponse env (stripS raw)
    safety_warning := true
    confidence := pys "High"
    sources := []
    disclaimer := dosageAdvisorDisclaimer
    query := some (pys "Dosage query for " ++ drug_name) }

/-- `DosageAdvisor._create_general_dosage_response`. -/
def createGeneralDosageResponse (env : Env) : Response :=
  { response := translateResponse env (stripS generalDosageBody)
    safety_warning := true
    confidence := pys "High"
    sources := []
    disclaimer := dosageAdvisorDisclaimer
    query := some (pys "General dosage inquiry") }

/-- `DosageAdvisor.handle_dosage_query`. -/
def handleDosageQuery (env : Env) (question : PyStr) : Response :=
  let en := extractAndNormalize question
  if en.1 = [] then createGeneralDosageResponse env
  else
    let drug_lower := lowerS en.1
    match lookupP drug_lower generalDosageInfo with
    | some info => createSpecificDosageResponse env en.1 info question
    | none =>
      let normalized := lowerS (normalizeDrugName en.1)
      match lookupP normalized generalDosageInfo with
      | some info => createSpecificDosageResponse env en.1 info question
      | none => createUnknownDrugDosageResponse env en.1 en.2
/-- The RAG prompt template of `MedExplainRAG`, split at its two
interpolation slots (`context`, `question`). -/
def promptP1 : PyStr := pys "\nYou are MedExplain, a friendly and helpful AI assistant that provides medication information in a conversational, user-friendly way.\n\nRESPONSE STYLE:\n- Be conversational, warm, and helpful (like talking to a knowledgeable friend)\n- Give direct, clear answers without being overly formal\n- Use \"Yes\" or \"No\" when appropriate instead of long disclaimers\n- Make reasonable clinical assumptions based on available data\n- NEVER start with \"The FDA sources provided do not contain...\" - instead make smart assumptions or give general guidance\n\nSAFETY FIRST:\n- Always include appropriate safety warnings\n- Encourage consulting healthcare professionals for personalized advice\n- Be clear about serious interactions or concerns\n\nCONTEXT FROM MEDICAL SOURCES:\n"

def promptP2 : PyStr := pys "\n\nUSER QUESTION: "

def promptP3 : PyStr := pys "\n\nProvide a helpful, conversational response. If you don't have specific information, make reasonable assumptions based on drug classes and general medical knowledge, but always mention consulting a healthcare provider.\n\nRESPONSE:\n"

/-! ## Retrieval and context assembly (`rag_pipeline.py`) -/

/-- Decimal digits of a natural number (`str(n)`); fuel-driven. -/
def natToDecF : Nat → Nat → PyStr
  | 0, _ => []
  | fuel + 1, n => if n < 10 then [48 + n] else natToDecF fuel (n / 10) ++ [48 + n % 10]

def natToDec (n : Nat) : PyStr := natToDecF (n + 1) n

/-- `sep.join(l)` for an arbitrary separator. -/
def joinSep (sep : PyStr) : List PyStr → PyStr
  | [] => []
  | [x] => x
  | x :: y :: t => x ++ sep ++ joinSep sep (y :: t)

/-- Python `s.split(sep)` for a non-empty separator (keeps empty pieces);
`fuel = s.length + 1`. -/
def splitOnSubF (sep : PyStr) : Nat → PyStr → PyStr → List PyStr
  | 0, acc, s => [acc ++ s]
  | _ + 1, acc, [] => [acc]
  | fuel + 1, acc, c :: cs =>
    if sep.isPrefixOf (c :: cs) then
      acc :: splitOnSubF sep fuel [] ((c :: cs).drop sep.length)
    else splitOnSubF sep fuel (acc ++ [c]) cs

def splitOnSub (sep s : PyStr) : List PyStr := splitOnSubF sep (s.length + 1) [] s

/-- Python `s.replace(pat, rep)` (case-sensitive, non-overlapping);
`fuel = s.length + 1`. -/
def replaceAllSub (pat rep : PyStr) : Nat → PyStr → PyStr
  | 0, s => s
  | _ + 1, [] => []
  | fuel + 1, c :: cs =>
    if pat ≠ [] ∧ pat.isPrefixOf (c :: cs) then
      rep ++ replaceAllSub pat rep fuel ((c :: cs).drop pat.length)
    else c :: replaceAllSub pat rep fuel cs

/-- The fixed miss marker of `_retrieve_context`. -/
def noRelevantInfo : PyStr := pys "No relevant FDA information found for this query."

/-- One formatted context block of `_retrieve_context` (after `.strip()`). -/
def formatSourcePart (i : Nat) (r : SResult) : PyStr :=
  let truncated := r.document.take 800 ++
    (if 800 < r.document.length then pys "...(truncated)" else [])
  pys "SOURCE " ++ natToDec i ++ pys ":\nDrug: " ++
    (r.metadata.drug_name.getD (pys "Unknown")) ++ pys "\nSection: " ++
    titleS (replaceAllSub (pys "_") (pys " ")
      ((r.metadata.sectionName.getD (pys "Unknown")).length + 1)
      (r.metadata.sectionName.getD (pys "Unknown"))) ++
    pys "\n\nContent:\n" ++ truncated ++ pys "\n---"

def formatSourceParts : Nat → List SResult → List PyStr
  | _, [] => []
  | i, r :: rs => formatSourcePart i r :: formatSourceParts (i + 1) rs

/-- The relevance filter of `_retrieve_context`. -/
def isRelevantResult (dn : PyStr) (r : SResult) : Bool :=
  let distance := r.distance.getD 1
  let result_drug := lowerS (r.metadata.drug_name.getD [])
  if dn ≠ [] then
    let dl := lowerS dn
    decide (distance < mkRat 3 2) &&
      (containsSub dl result_drug || containsSub result_drug dl ||
        decide (dl = result_drug))
  else decide (distance < mkRat 6 5)

/-- `MedExplainRAG._retrieve_context`; `af` records whether an on-demand
drug has been added to the vector store. -/
def retrieveContext (env : Env) (af : Bool) (question : PyStr) :
    Except PyStr PyStr := do
  let results ← env.search af question
  if results = [] then return noRelevantInfo
  else
    let dn := (extractAndNormalize question).1
    let relevant := results.filter (isRelevantResult dn)
    if relevant = [] then return noRelevantInfo
    else return joinSep (pys "\n\n") (formatSourceParts 1 relevant)

/-- The line-folding step of `_extract_sources_from_context`. -/
def parseSourceLine (info : SourceInfo) (line : PyStr) : SourceInfo :=
  if (pys "Drug:").isPrefixOf line then
    { info with drug := some (stripS (replaceAllSub (pys "Drug:") [] (line.length + 1) line)) }
  else if (pys "Section:").isPrefixOf line then
    { info with sectionName := some (stripS (replaceAllSub (pys "Section:") [] (line.length + 1) line)) }
  else if (pys "Source URL:").isPrefixOf line then
    { info with url := some (stripS (replaceAllSub (pys "Source URL:") [] (line.length + 1) line)) }
  else if (pys "Last Updated:").isPrefixOf line then
    { info with last_updated := some (stripS (replaceAllSub (pys "Last Updated:") [] (line.length + 1) line)) }
  else info

/-- `if source_info:` — the parsed dictionary is non-empty. -/
def sourceInfoNonempty (i : SourceInfo) : Bool :=
  i.drug.isSome || i.sectionName.isSome || i.url.isSome || i.last_updated.isSome

/-- `MedExplainRAG._extract_sources_from_context`. -/
def extractSourcesFromContext (context : PyStr) : List SourceInfo :=
  ((splitOnSub (pys "SOURCE ") context).drop 1).filterMap (fun sec =>
    let info := (splitOnSub (pys "\n") sec).foldl parseSourceLine {}
    if sourceInfoNonempty info then some info else none)

/-- `MedExplainRAG._calculate_confidence`. -/
def calculateConfidence (sources : List SourceInfo) (context : PyStr) : PyStr :=
  if sources = [] then pys "Low"
  else if 3 ≤ sources.length ∧ 500 < context.length then pys "High"
  else if 2 ≤ sources.length ∧ 200 < context.length then pys "Medium"
  else pys "Low"

/-- `self.chain.invoke({"question": question})`: the chain retrieves
context again and calls the LLM on the filled prompt template. -/
def chainInvoke (env : Env) (af : Bool) (question : PyStr) :
    Except PyStr PyStr := do
  let context ← retrieveContext env af question
  env.llm (promptP1 ++ context ++ promptP2 ++ question ++ promptP3)

/-- `MedExplainRAG._try_fetch_drug_on_demand`: the body's own
`try/except` returns `False` on an exception. -/
def tryFetchDrugOnDemand (env : Env) (drug_name : PyStr) : Bool :=
  match env.fetchBody drug_name with
  | .ok b => b
  | .error _ => false

/-- Numbered suggestion lines of `_no_drug_found_response`. -/
def enumLines : Nat → List PyStr → PyStr
  | _, [] => []
  | i, s :: t => natToDec i ++ pys ". " ++ s ++ pys "\n" ++ enumLines (i + 1) t

/-- `MedExplainRAG._no_drug_found_response`. -/
def noDrugFoundResponse (env : Env) (question : PyStr)
    (suggestions : List PyStr) : Response :=
  let msg1 := pys "I don't have information about this specific medication in my current database. "
  let msg2 := msg1 ++
    (if suggestions ≠ [] then
      pys "\n\n🤔 **Did you mean one of these?**\n" ++
        enumLines 1 (suggestions.take 3) ++
        pys "\nYou can ask about any of these instead."
     else [])
  let all_drugs := env.listAllDrugs
  let msg3 := msg2 ++
    (if all_drugs ≠ [] then
      pys "\n\n📋 **I currently have information about these medications:**\n" ++
        joinComma (all_drugs.take 10) ++ pys "." ++
        (if 10 < all_drugs.length then
          pys "\n(and " ++ natToDec (all_drugs.length - 10) ++ pys " more...)"
         else []) ++
        pys "\n\nYou can ask about any of these, or contact your healthcare provider for information about other medications."
     else
      pys "\n\nPlease consult your healthcare provider or pharmacist for accurate information about this medication.")
  { response := msg3
    safety_warning := false
    confidence := pys "Low"
    sources := []
    disclaimer := generalDisclaimer
    query := some question }

/-! ## Smart interaction detector (`conversation_context.py`) -/

/-- Whitespace-splitting into words, dropping empties (`str.split()`);
`fuel = s.length + 1`. -/
def splitWSF : Nat → PyStr → List PyStr
  | 0, _ => []
  | _ + 1, [] => []
  | fuel + 1, c :: cs =>
    if isSpaceC c then splitWSF fuel cs
    else
      ((c :: cs).takeWhile (fun d => !isSpaceC d)) ::
        splitWSF fuel ((c :: cs).dropWhile (fun d => !isSpaceC d))

def splitWS (s : PyStr) : List PyStr := splitWSF (s.length + 1) s

/-- The stop words of `ConversationContext._extract_secondary_drug`. -/
def followupExcludeWords : List PyStr :=
  [pys "food", pys "water", pys "milk", pys "alcohol", pys "coffee", pys "tea",
   pys "other", pys "another", pys "something", pys "anything", pys "nothing",
   pys "me", pys "you", pys "it", pys "this", pys "that", pys "them", pys "they"]

/-- The prioritized patterns of `_extract_secondary_drug`. -/
def secondaryDrugPatterns : List (List RTok) :=
  [[.alts [pys "with", pys "and", pys "together with", pys "along with"],
    .ws, .alphaGrp],
   [.alts [pys "take it", pys "take this", pys "take that"], .ws,
    .alts [pys "with", pys "and"], .ws, .alphaGrp],
   [.alts [pys "combine it", pys "combine this", pys "combine that"], .ws,
    .alts [pys "with", pys "and"], .ws, .alphaGrp],
   [.alts [pys "what about", pys "how about"], .ws,
    .alts [pys "with", pys "and"], .ws, .alphaGrp],
   [.alts [pys "what about", pys "how about"], .ws, .alphaGrp]]

/-- `ConversationContext._extract_secondary_drug` (on the lowered query):
the first pattern whose first match survives the stop-word and length
filters; a match that fails the filters moves on to the next pattern. -/
def extractSecondaryDrug (q : PyStr) : Option PyStr :=
  secondaryDrugPatterns.findSome? (fun toks =>
    match rsearch toks q with
    | some (g :: _, _) =>
      let cand := stripS g
      if lowerS cand ∉ followupExcludeWords ∧ 3 ≤ cand.length then
        some (titleS cand)
      else none
    | _ => none)

/-- `ConversationContext.extract_followup_interaction`. -/
def extractFollowupInteraction (now : ℚ) (ctx : ConvContext) (query : PyStr) :
    Option (PyStr × PyStr) :=
  if !isFollowupQuestion now ctx query || ctx.recent_drugs.isEmpty then none
  else
    match ctx.recent_drugs.head? with
    | none => none
    | some primary =>
      match extractSecondaryDrug (stripS (lowerS query)) with
      | some secondary => some (primary, secondary)
      | none => none

/-- `SmartInteractionDetector.interaction_patterns` (tokenized). -/
def interactionPatterns : List (List RTok) :=
  [[.lit (pys "can i take "), .grp, .lit (pys " with "), .grp, .lit (pys "?")],
   [.grp, .lit (pys " and "), .grp, .lit (pys " together")],
   [.grp, .lit (pys " with "), .grp, .lit (pys " interaction")],
   [.lit (pys "combining "), .grp, .lit (pys " and "), .grp],
   [.lit (pys "take "), .grp, .lit (pys " and "), .grp],
   [.grp, .lit (pys " and "), .grp, .lit (pys " safe")],
   [.lit (pys "mix "), .grp, .lit (pys " with "), .grp],
   [.lit (pys "use "), .grp, .lit (pys " with "), .grp],
   [.lit (pys "is it "), .alts [pys "safe", pys "okay"], .lit (pys " to "),
    .alts [pys "take", pys "use"], .lit (pys " "), .grp, .lit (pys " "),
    .alts [pys "with", pys "and"], .lit (pys " "), .grp, .optLit (pys "?")],
   [.alts [pys "can", pys "should"], .lit (pys " i "),
    .alts [pys "combine", pys "mix"], .lit (pys " "), .grp, .lit (pys " "),
    .alts [pys "with", pys "and"], .lit (pys " "), .grp, .optLit (pys "?")],
   [.lit (pys "what about "), .grp, .lit (pys " "),
    .alts [pys "with", pys "and"], .lit (pys " "), .grp, .optLit (pys "?")]]

/-- The noise words removed from extracted drug phrases. -/
def interactionNoiseWords : List PyStr :=
  [pys "the", pys "a", pys "an", pys "my", pys "some", pys "any"]

/-- `' '.join([word for word in s.split() if word not in noise_words])`. -/
def removeNoiseWords (s : PyStr) : PyStr :=
  joinSep (pys " ") ((splitWS s).filter (fun w => w ∉ interactionNoiseWords))

/-- The standard-pattern loop of
`SmartInteractionDetector.detect_interaction_query`: first pattern whose
match survives noise-word removal and the length checks. -/
def detectStandardPair (ql : PyStr) : Option (PyStr × PyStr) :=
  interactionPatterns.findSome? (fun toks =>
    match rsearch toks ql with
    | some (g1 :: g2 :: _, _) =>
      let drug1 := removeNoiseWords (stripS g1)
      let drug2 := removeNoiseWords (stripS g2)
      if drug1 ≠ [] ∧ drug2 ≠ [] ∧ 2 < drug1.length ∧ 2 < drug2.length then
        some (drug1, drug2)
      else none
    | _ => none)

/-- `SmartInteractionDetector.detect_interaction_query` with
`add_to_context=True`: the detected pair (if any) and the updated
conversation context. -/
def detectInteractionQuery (now : ℚ) (ctx : ConvContext) (query : PyStr) :
    Option (PyStr × PyStr) × ConvContext :=
  match
    (if isFollowupQuestion now ctx query then
      extractFollowupInteraction now ctx query
     else none) with
  | some (d1, d2) => (some (d1, d2), addDrugMention now ctx d2)
  | none =>
    match detectStandardPair (stripS (lowerS query)) with
    | some (d1, d2) =>
      (some (titleS d1, titleS d2),
        addDrugMention now (addDrugMention now ctx d1) d2)
    | none => (none, ctx)

/-! ## Multi-drug parser (`multi_drug_parser.py`) -/

/-- `[a-z]` run helper. -/
def lcTake (s : PyStr) : PyStr := s.takeWhile (fun c => 97 ≤ c ∧ c ≤ 122)

/-- Greedy `(?:\s+[a-z]+)*` extension of a capitalized-word match with the
trailing `\b`, returning the remainder after the match, or `none` when no
extension of the base run satisfies the boundary, exactly following the
backtracking of `r'\b[A-Z][a-z]{3,}(?:\s+[a-z]+)*\b'`.  `fuel =
rem.length + 1`. -/
def capWordExt : Nat → PyStr → Option PyStr
  | 0, rem => some rem
  | fuel + 1, rem =>
    let sp := rem.takeWhile (fun c => isSpaceC c)
    if sp ≠ [] then
      let rem2 := rem.drop sp.length
      let r := lcTake rem2
      if r ≠ [] then
        match capWordExt fuel (rem2.drop r.length) with
        | some final => some final
        -- a deeper failure backtracks to ending right here, where the
        -- following whitespace provides the word boundary
        | none => some rem
      else some rem
    else if headWordB rem then none
    else some rem

/-- Count of `re.findall(r'\b[A-Z][a-z]{3,}(?:\s+[a-z]+)*\b', query)`
matches (non-overlapping, left to right); case-sensitive.  `pw` is the
word-ness of the previous character, `fuel = s.length + 1`. -/
def countCapWords : Nat → Bool → PyStr → Nat
  | 0, _, _ => 0
  | _ + 1, _, [] => 0
  | fuel + 1, pw, c :: cs =>
    if !pw ∧ 65 ≤ c ∧ c ≤ 90 then
      let r := lcTake cs
      if 3 ≤ r.length then
        match capWordExt (cs.length + 1) (cs.drop r.length) with
        | some rem => 1 + countCapWords fuel true rem
        | none => countCapWords fuel (isWordC c) cs
      else countCapWords fuel (isWordC c) cs
    else countCapWords fuel (isWordC c) cs

/-- `MultiDrugParser.multi_drug_patterns` (case-sensitive searches). -/
def hasMultiDrugFormatting (query : PyStr) : Bool :=
  containsSub (pys "\n") query ||
  rsearchB [.lit (pys ","), .wsStar, .oneC (fun c => 65 ≤ c ∧ c ≤ 90)] query ||
  rsearchB [.digits, .lit (pys "."), .wsStar, .oneC (fun c => 65 ≤ c ∧ c ≤ 90)] query ||
  rsearchB [.lit (pys "•"), .wsStar, .oneC (fun c => 65 ≤ c ∧ c ≤ 90)] query ||
  rsearchB [.lit (pys "-"), .wsStar, .oneC (fun c => 65 ≤ c ∧ c ≤ 90)] query

/-- `MultiDrugParser.is_multi_drug_query`.  Note that `.lit` matching is
case-insensitive, which is inconsequential for the punctuation literals
used here. -/
def isMultiDrugQuery (query : PyStr) : Bool :=
  let n := countCapWords (query.length + 1) false query
  decide (3 ≤ n) || (decide (2 ≤ n) && hasMultiDrugFormatting query)

/-- `re.sub(r'^(what does?|tell me about|information about)\s+', '', q,
re.IGNORECASE)`: the anchored alternation tried in order. -/
def stripLeadQuestion (q : PyStr) : PyStr :=
  match mtch [.lit (pys "what doe"), .optLit (pys "s"), .ws] q with
  | some (_, rem) => rem
  | none =>
    match mtch [.lit (pys "tell me about"), .ws] q with
    | some (_, rem) => rem
    | none =>
      match mtch [.lit (pys "information about"), .ws] q with
      | some (_, rem) => rem
      | none => q

/-- `re.sub(r'\s+(do\??)$', '', q, re.IGNORECASE)`. -/
def stripDoSuffix (q : PyStr) : PyStr :=
  let r := q.reverse
  let r1 := if r.head? = some 63 then r.tail else r
  if (pys "od").isPrefixOf (lowerS r1) then
    let r2 := r1.drop 2
    let ws := r2.takeWhile (fun c => isSpaceC c)
    if ws ≠ [] then (r2.drop ws.length).reverse else q
  else q

/-- `re.sub(r'^\d+\.?\s*', '', line)`. -/
def stripNumPrefix (l : PyStr) : PyStr :=
  let ds := l.takeWhile (fun c => isDigitC c)
  if ds ≠ [] then
    let r := l.drop ds.length
    let r2 := if r.head? = some 46 then r.tail else r
    r2.dropWhile (fun c => isSpaceC c)
  else l

/-- `re.sub(r'^[•\-]\s*', '', line)`. -/
def stripBulletPrefix (l : PyStr) : PyStr :=
  match l with
  | c :: cs => if c = 8226 ∨ c = 45 then cs.dropWhile (fun d => isSpaceC d) else l
  | [] => []

/-- Leftmost `:` with no newline before it, for the lazy `.*?:`. -/
def dropThroughColon : PyStr → Option PyStr
  | [] => none
  | c :: cs =>
    if c = 58 then some cs
    else if c = 10 then none
    else dropThroughColon cs

/-- `re.sub(r'^\s*[❤️🧪🧬]\s*.*?:', '', line)`: the character class holds
the code points of the emoji literals (U+2764, U+FE0F, U+1F9EA, U+1F9EC). -/
def stripEmojiCategory (l : PyStr) : PyStr :=
  let ws := l.takeWhile (fun c => isSpaceC c)
  let rest := l.drop ws.length
  match rest with
  | c :: cs =>
    if c = 10084 ∨ c = 65039 ∨ c = 129514 ∨ c = 129516 then
      match dropThroughColon (cs.dropWhile (fun d => isSpaceC d)) with
      | some after => after
      | none => l
    else l
  | [] => l

/-- The delimiter-splitting step of `MultiDrugParser.extract_drug_list`. -/
def splitDrugLines (cleaned : PyStr) : List PyStr :=
  let lines :=
    if containsSub (pys "\n") cleaned then
      ((splitOnSub (pys "\n") cleaned).map stripS).filter (fun l => l ≠ [])
    else if containsSub (pys ",") cleaned then
      ((splitOnSub (pys ",") cleaned).map stripS).filter (fun l => l ≠ [])
    else if containsSub (pys "•") cleaned then
      ((splitOnSub (pys "•") cleaned).map stripS).filter (fun l => l ≠ [])
    else if containsSub (pys "-") cleaned then
      ((splitOnSub (pys "-") cleaned).map stripS).filter (fun l => l ≠ [])
    else []
  if lines = [] then [cleaned] else lines

/-- Case-insensitive order-preserving dedup (the `seen` set loop). -/
def dedupCI : List PyStr → List PyStr → List PyStr
  | _, [] => []
  | seen, d :: ds =>
    if lowerS d ∈ seen then dedupCI seen ds
    else d :: dedupCI (lowerS d :: seen) ds

/-- `MultiDrugParser.extract_drug_list`. -/
def extractDrugList (query : PyStr) : List PyStr :=
  let cleaned := stripDoSuffix (stripLeadQuestion query)
  let drugs := (splitDrugLines cleaned).filterMap (fun line =>
    let cl := stripEmojiCategory (stripBulletPrefix (stripNumPrefix line))
    let dn := (extractAndNormalize cl).1
    if dn ≠ [] ∧ 2 < dn.length then some dn else none)
  dedupCI [] drugs

/-- `MultiDrugParser.create_individual_queries`: the template is chosen
from topic keywords of the lowered original query. -/
def createIndividualQueries (drugs : List PyStr) (original_query : PyStr) :
    List PyStr :=
  let ql := lowerS original_query
  let tpl : PyStr × PyStr :=
    if containsSub (pys "side effects") ql then
      (pys "What are the side effects of ", pys "?")
    else if containsSub (pys "contraindications") ql then
      (pys "What are the contraindications for ", pys "?")
    else if containsSub (pys "uses") ql || containsSub (pys "used for") ql then
      (pys "What is ", pys " used for?")
    else if containsSub (pys "dosage") ql || containsSub (pys "dose") ql then
      (pys "What is the dosage for ", pys "?")
    else if containsSub (pys "interactions") ql then
      (pys "What are the drug interactions for ", pys "?")
    else (pys "What does ", pys " do?")
  drugs.map (fun d => tpl.1 ++ d ++ tpl.2)

/-- The display-name fallback of `format_combined_response` when a
sub-response carries no `drug_name` key. -/
def combinedDrugName (i : Nat) (r : Response) : PyStr :=
  let dflt := pys "Drug " ++ natToDec i
  let dn0 := r.drug_name.getD dflt
  if dn0 ≠ dflt then dn0
  else
    let q := r.query.getD dflt
    match rsearch [.alts [pys "what does", pys "what is"], .ws, .alphaGrp] q with
    | some (g :: _, _) => g
    | _ =>
      let common := [pys "what", pys "does", pys "do", pys "is", pys "the",
        pys "used", pys "for", pys "side", pys "effects", pys "of"]
      match (splitWS q).find? (fun w =>
          let w' := (((w.dropWhile (fun c => c = 63)).reverse.dropWhile
            (fun c => c = 63)).reverse)
          decide (lowerS w' ∉ common) && decide (3 < w.length) &&
            (match w.head? with
             | some c => decide (65 ≤ c ∧ c ≤ 90)
             | none => false)) with
      | some w =>
        ((w.dropWhile (fun c => c = 63)).reverse.dropWhile (fun c => c = 63)).reverse
      | none => dflt

/-- One numbered block of the combined response text. -/
def combinedBlock (n i : Nat) (r : Response) : PyStr :=
  pys "## " ++ natToDec i ++ pys ". " ++ combinedDrugName i r ++ pys "\n\n" ++
    r.response ++ pys "\n\n" ++ (if i < n then pys "---\n\n" else [])

def combinedBlocks (n : Nat) : Nat → List Response → PyStr
  | _, [] => []
  | i, r :: rs => combinedBlock n i r ++ combinedBlocks n (i + 1) rs

/-- `MultiDrugParser.format_combined_response`. -/
def formatCombinedResponse (drug_responses : List Response)
    (original_query : PyStr) : Response :=
  if drug_responses = [] then
    { response := pys "I couldn't find information about the requested medications."
      safety_warning := false
      confidence := pys "Low"
      sources := []
      disclaimer := pys "Please consult your healthcare provider for medication information." }
  else
    let text := pys "Here's information about the medications you asked about:\n\n" ++
      combinedBlocks drug_responses.length 1 drug_responses
    let confs := drug_responses.map (fun r => r.confidence)
    let discs := (drug_responses.map (fun r => r.disclaimer)).filter (fun d => d ≠ [])
    { response := stripS text
      safety_warning := drug_responses.any (fun r => r.safety_warning)
      confidence :=
        if pys "High" ∈ confs then pys "High"
        else if pys "Medium" ∈ confs then pys "Medium"
        else pys "Low"
      sources := (drug_responses.map (fun r => r.sources)).flatten
      disclaimer := (discs.head?).getD
        (pys "Always consult your healthcare provider for medication information.")
      query := some original_query
      multi_drug_count := some drug_responses.length }

/-! ## Query orchestrator (`rag_pipeline.py`) -/

/-- `MedExplainRAG._handle_interaction_query`.  Its `try` body has no
raise points in this model (the translator catches its own LLM failures),
so the source's fallback `except` arm is unreachable and omitted. -/
def handleInteractionQuery (env : Env) (drug1 drug2 original_question : PyStr) :
    Response :=
  let ir := analyzeInteraction drug1 drug2
  let text := ir.description ++
    (if ir.advice ≠ [] then pys "\n\n💡 **Practical advice:** " ++ ir.advice else []) ++
    pys "\n\n🏥 **Remember:** Always inform your doctor and pharmacist about all medications you're taking, including over-the-counter drugs and supplements."
  { response := translateResponse env text
    safety_warning := ir.severity = pys "caution" ∨ ir.severity = pys "monitor"
    confidence := ir.confidence
    sources :=
      [{ drug := some drug1, sectionName := some (pys "Drug Interaction Analysis"),
         url := some (pys "Clinical Database") },
       { drug := some drug2, sectionName := some (pys "Drug Interaction Analysis"),
         url := some (pys "Clinical Database") }]
    disclaimer := pys "This interaction analysis is based on general medical knowledge and drug classification patterns. Individual responses may vary."
    query := some original_question }

/-- The success tail of the standard retrieval path (steps after the
context is settled): generation, translation, context update, source
extraction, confidence and disclaimer. -/
def finishStandard (env : Env) (now : ℚ) (ctx : ConvContext)
    (question : PyStr) (af : Bool) (context : PyStr) :
    Except PyStr (Response × ConvContext) :=
  match chainInvoke env af question with
  | .error e => .error e
  | .ok generated =>
    let resp := translateResponse env generated
    let en := extractAndNormalize question
    let ctx' := if en.1 ≠ [] then addDrugMention now ctx en.1 else ctx
    let sources := extractSourcesFromContext context
    .ok ({ response := resp
           safety_warning := false
           confidence := calculateConfidence sources context
           sources := sources
           disclaimer := getDisclaimerForQuery question
           query := some question }, ctx')

/-- The miss marker checked with `in` (`"No relevant FDA information
found" in context`). -/
def missMarker : PyStr := pys "No relevant FDA information found"

/-- The body of the `try` block shared by `query` (steps 5) and
`_query_single_drug`: retrieval, optional on-demand fetch with one retry,
then generation.  An `Except.error` is an exception escaping to the
caller's `except` clause. -/
def standardBody (env : Env) (now : ℚ) (ctx : ConvContext) (question : PyStr) :
    Except PyStr (Response × ConvContext) :=
  match retrieveContext env false question with
  | .error e => .error e
  | .ok context0 =>
    if containsSub missMarker context0 then
      let en := extractAndNormalize question
      if en.1 ≠ [] then
        if tryFetchDrugOnDemand env en.1 then
          match retrieveContext env true question with
          | .error e => .error e
          | .ok context1 =>
            if containsSub missMarker context1 then
              .ok (noDrugFoundResponse env question en.2, ctx)
            else finishStandard env now ctx question true context1
        else .ok (noDrugFoundResponse env question en.2, ctx)
      else .ok (noDrugFoundResponse env question [], ctx)
    else finishStandard env now ctx question false context0

/-- The error response built by the `except` clauses of `query` and
`_query_single_drug` (their texts are identical). -/
def convError (e : PyStr) : Response :=
  { response := pys "I apologize, but I encountered an error processing your question: " ++ e
    safety_warning := false
    confidence := pys "Low"
    sources := []
    disclaimer := generalDisclaimer
    error := some e }

/-- `MedExplainRAG._query_single_drug` (the dosage dispatch sits inside
its `try`, though neither it nor the parser raise in this model). -/
def querySingleDrug (env : Env) (now : ℚ) (ctx : ConvContext)
    (question : PyStr) : Response × ConvContext :=
  if isDosageQuery question then (handleDosageQuery env question, ctx)
  else
    match standardBody env now ctx question with
    | .ok rc => rc
    | .error e => (convError e, ctx)

/-- The per-drug processing loop of `_handle_multi_drug_query`, threading
the shared conversation context and stamping each sub-response with its
drug name. -/
def processDrugList (env : Env) (now : ℚ) :
    ConvContext → List (PyStr × PyStr) → List Response × ConvContext
  | ctx, [] => ([], ctx)
  | ctx, (drug, q) :: rest =>
    let rc := querySingleDrug env now ctx q
    let r := { rc.1 with drug_name := some drug }
    let rec_rest := processDrugList env now rc.2 rest
    (r :: rec_rest.1, rec_rest.2)

/-- `MedExplainRAG._handle_multi_drug_query`.  Its `try` body has no
raise points in this model (`_query_single_drug` catches internally), so
the `except` arm is unreachable and omitted. -/
def handleMultiDrugQuery (env : Env) (now : ℚ) (ctx : ConvContext)
    (question : PyStr) : Response × ConvContext :=
  let drugs := extractDrugList question
  if drugs = [] then (noDrugFoundResponse env question [], ctx)
  else
    let drugs10 := if 10 < drugs.length then drugs.take 10 else drugs
    let qs := createIndividualQueries drugs10 question
    let rs := processDrugList env now ctx (drugs10.zip qs)
    (formatCombinedResponse rs.1 question, rs.2)

/-- `MedExplainRAG.query`: the dispatch in source order — safety gate,
interaction detection, multi-drug, dosage (before the `try`), then the
standard path inside `try/except`.  Returns the response and the updated
shared conversation context. -/
def queryRag (env : Env) (now : ℚ) (ctx : ConvContext) (question : PyStr)
    (include_safety_check : Bool := true) : Response × ConvContext :=
  let sc := checkQuery question
  if include_safety_check && !sc.is_safe then
    ({ response := sc.message
       safety_warning := true
       confidence := pys "N/A"
       sources := []
       disclaimer := emergencyDisclaimer }, ctx)
  else
    match detectInteractionQuery now ctx question with
    | (some (d1, d2), ctx') => (handleInteractionQuery env d1 d2 question, ctx')
    | (none, ctx') =>
      if isMultiDrugQuery question then handleMultiDrugQuery env now ctx' question
      else if isDosageQuery question then (handleDosageQuery env question, ctx')
      else
        match standardBody env now ctx' question with
        | .ok rc => rc
        | .error e => (convError e, ctx')

lemma matchPrefixCI_of_isPrefixOf :
    ∀ (p s : PyStr), lowerS p = p → p.isPrefixOf s = true →
      ∃ r, matchPrefixCI p s = some r := by
  intro p
  induction p with
  | nil => intro s _ _; exact ⟨s, rfl⟩
  | cons k ks ih =>
    intro s hp hpre
    cases s with
    | nil => simp [List.isPrefixOf] at hpre
    | cons c cs =>
      simp only [List.isPrefixOf, Bool.and_eq_true, beq_iff_eq] at hpre
      simp only [lowerS, List.map_cons, List.cons.injEq] at hp
      obtain ⟨hk, hks⟩ := hp
      obtain ⟨hkc, hrest⟩ := hpre
      have : lowerC c = k := by rw [← hkc, hk]
      simp only [matchPrefixCI, this, if_pos rfl]
      exact ih cs hks hrest

lemma rsearchB_single_lit :
    ∀ (q p : PyStr), lowerS p = p → containsSub p q = true →
      rsearchB [.lit p] q = true := by
  intro q
  induction q with
  | nil =>
    intro p hp hc
    simp only [containsSub, List.isEmpty_iff] at hc
    subst hc
    rfl
  | cons c cs ih =>
    intro p hp hc
    simp only [containsSub, Bool.or_eq_true] at hc
    unfold rsearchB rsearch
    cases hm : mtch [.lit p] (c :: cs) with
    | some r => rfl
    | none =>
      rcases hc with hpre | hrec
      · obtain ⟨r, hr⟩ := matchPrefixCI_of_isPrefixOf p (c :: cs) hp hpre
        simp only [mtch, hr] at hm
        exact absurd hm (by simp [mtch])
      · have := ih p hp hrec
        unfold rsearchB at this
        exact this

/-- C10: a question whose lowered text contains `"overdose"` is blocked
at the safety gate: `query` returns the gate's fixed blocked response
(`safety_warning = true`, confidence `"N/A"`, the safety filter's
message, the emergency disclaimer, untouched context) for every
environment and context — in particular the dosage advisor is never
invoked — even though such text does satisfy the advisor's own
dosage-pattern set. -/
theorem overdose_blocked_at_gate (env : Env) (now : ℚ) (ctx : ConvContext)
    (question : PyStr)
    (h : containsSub (pys "overdose") (lowerS question) = true) :
    (checkQuery question).is_safe = false ∧
    isDosageQuery question = true ∧
    queryRag env now ctx question true =
      ({ response := (checkQuery question).message
         safety_warning := true
         confidence := pys "N/A"
         sources := []
         disclaimer := emergencyDisclaimer }, ctx) := by
  have hemerg : emergencyHit (lowerS question) = true := by
    unfold emergencyHit
    rw [List.any_eq_true]
    exact ⟨pys "overdose", by simp, h⟩
  have hsafe : (checkQuery question).is_safe = false := by
    unfold checkQuery
    by_cases hd : dangerousHit (lowerS question) = true
    · simp [hd]
    · simp [hd, hemerg]
  refine ⟨hsafe, ?_, ?_⟩
  · unfold isDosageQuery
    rw [List.any_eq_true]
    refine ⟨[.lit (pys "overdose")], by simp, ?_⟩
    exact rsearchB_single_lit (lowerS question) (pys "overdose") (by decide) h
  · unfold queryRag
    dsimp only
    rw [hsafe]
    rfl

/-- Witness for C10 at a concrete blocked question and a trivial
environment. -/
theorem overdose_blocked_at_gate_witness :
    containsSub (pys "overdose") (lowerS (pys "What happens in an overdose?")) = true ∧
    (queryRag
        { search := fun _ _ => .ok []
          listAllDrugs := []
          fetchBody := fun _ => .ok false
          llm := fun _ => .ok []
          translatorLLM := fun _ => .ok [] }
        0 ConvContext.init (pys "What happens in an overdose?") true).1.confidence =
      pys "N/A" :=
  ⟨by decide, by
    rw [(overdose_blocked_at_gate _ 0 ConvContext.init
      (pys "What happens in an overdose?") (by decide)).2.2]⟩

lemma processDrugList_length (env : Env) (now : ℚ) :
    ∀ (ctx : ConvContext) (l : List (PyStr × PyStr)),
      ((processDrugList env now ctx l).1).length = l.length := by
  intro ctx l
  induction l generalizing ctx with
  | nil => rfl
  | cons p rest ih =>
    cases p with
    | mk drug q =>
      simp only [processDrugList, List.length_cons]
      rw [ih]

/-- A shared trivial environment for concrete evaluations. -/
def trivialEnv : Env :=
  { search := fun _ _ => .ok []
    listAllDrugs := []
    fetchBody := fun _ => .ok false
    llm := fun _ => .ok []
    translatorLLM := fun _ => .ok [] }

/-- C9: a multi-drug query processes at most the first 10 extracted
drugs: the combined response covers `min(n, 10)` drugs and its
`multi_drug_count` never exceeds 10. -/
theorem multi_drug_truncated_to_ten (env : Env) (now : ℚ) (ctx : ConvContext)
    (question : PyStr) (hne : extractDrugList question ≠ []) :
    (handleMultiDrugQuery env now ctx question).1.multi_drug_count =
      some (min (extractDrugList question).length 10) ∧
    min (extractDrugList question).length 10 ≤ 10 := by
  refine ⟨?_, Nat.min_le_right _ _⟩
  unfold handleMultiDrugQuery
  dsimp only
  rw [if_neg hne]
  have hlen10 :
      (if 10 < (extractDrugList question).length then
        (extractDrugList question).take 10
       else extractDrugList question).length =
        min (extractDrugList question).length 10 := by
    split
    · rw [List.length_take]; omega
    · omega
  have hzlen :
      ((if 10 < (extractDrugList question).length then
          (extractDrugList question).take 10
        else extractDrugList question).zip
        (createIndividualQueries
          (if 10 < (extractDrugList question).length then
            (extractDrugList question).take 10
           else extractDrugList question) question)).length =
        min (extractDrugList question).length 10 := by
    rw [List.length_zip]
    unfold createIndividualQueries
    rw [List.length_map, hlen10, Nat.min_self]
  have hplen := processDrugList_length env now ctx
    ((if 10 < (extractDrugList question).length then
        (extractDrugList question).take 10
      else extractDrugList question).zip
      (createIndividualQueries
        (if 10 < (extractDrugList question).length then
          (extractDrugList question).take 10
         else extractDrugList question) question))
  rw [hzlen] at hplen
  have hpos : 0 < min (extractDrugList question).length 10 := by
    have := List.length_pos.mpr hne
    omega
  unfold formatCombinedResponse
  rw [if_neg (by
    intro hnil
    rw [hnil] at hplen
    simp at hplen
    omega)]
  dsimp only
  rw [hplen]

/-- Witness for C9: eleven extracted drugs, `multi_drug_count = 10`. -/
theorem multi_drug_truncated_to_ten_witness :
    extractDrugList (pys "Ibuprofen\nAspirin\nMetformin\nWarfarin\nLisinopril\nAmlodipine\nMetoprolol\nSertraline\nFluoxetine\nNaproxen\nGabapentin") ≠ [] ∧
    (extractDrugList (pys "Ibuprofen\nAspirin\nMetformin\nWarfarin\nLisinopril\nAmlodipine\nMetoprolol\nSertraline\nFluoxetine\nNaproxen\nGabapentin")).length = 11 ∧
    (handleMultiDrugQuery trivialEnv 0 ConvContext.init
        (pys "Ibuprofen\nAspirin\nMetformin\nWarfarin\nLisinopril\nAmlodipine\nMetoprolol\nSertraline\nFluoxetine\nNaproxen\nGabapentin")).1.multi_drug_count =
      some (min 11 10) := by
  refine ⟨by decide, by decide, ?_⟩
  have h := (multi_drug_truncated_to_ten trivialEnv 0 ConvContext.init
    (pys "Ibuprofen\nAspirin\nMetformin\nWarfarin\nLisinopril\nAmlodipine\nMetoprolol\nSertraline\nFluoxetine\nNaproxen\nGabapentin") (by decide)).1
  rw [h]
  norm_num
  decide

/-- A stored document for the translation-exception run. -/
def cexDoc : PyStr :=
  pys "Ibuprofen is a nonsteroidal medicine used to treat pain and fever in adults and children and it should be taken with food to reduce the chance of stomach upset during use."

/-- A close, on-topic vector-store hit for `"ibuprofen"`. -/
def cexSearchResult : SResult :=
  { document := cexDoc
    metadata := { drug_name := some (pys "ibuprofen"), sectionName := some (pys "dosage") }
    distance := some (mkRat 1 2) }

/-- Environment in which retrieval and generation succeed (three relevant
sources, a long context, an LLM answer full of complex terms) but the
translator's LLM call raises. -/
def cexEnv : Env :=
  { search := fun _ _ => .ok [cexSearchResult, cexSearchResult, cexSearchResult]
    listAllDrugs := []
    fetchBody := fun _ => .ok false
    llm := fun _ => .ok (pys "cardiology dermatology neurology")
    translatorLLM := fun _ => .error (pys "boom") }

/-- C2 counterexample: on a gate-passing, non-interaction, non-multi-drug,
non-dosage question, an exception raised during translation (step 5) is
caught inside `translate_response`, not by `query`: the returned response
has confidence `"High"` and no `error` field, not the claimed
Low-confidence error response carrying the exception message. -/
theorem translation_exception_not_converted :
    (checkQuery (pys "tell me about ibuprofen")).is_safe = true ∧
    (detectInteractionQuery 0 ConvContext.init (pys "tell me about ibuprofen")).1 = none ∧
    isMultiDrugQuery (pys "tell me about ibuprofen") = false ∧
    isDosageQuery (pys "tell me about ibuprofen") = false ∧
    2 < complexCount (applyDictionaryTranslations (pys "cardiology dermatology neurology")) ∧
    cexEnv.translatorLLM
        (applyDictionaryTranslations (pys "cardiology dermatology neurology")) =
      .error (pys "boom") ∧
    (queryRag cexEnv 0 ConvContext.init (pys "tell me about ibuprofen") true).1.confidence =
      pys "High" ∧
    (queryRag cexEnv 0 ConvContext.init (pys "tell me about ibuprofen") true).1.error = none := by
  exact ⟨by decide, by decide, by decide, by decide, by decide, rfl,
    by decide, by decide⟩

/-- C2 amended: for a question that passes the gate and is dispatched
neither as interaction nor as multi-drug, (a) the dosage dispatch (which
sits before the `try` and raises nothing in this model) returns the
dosage advisor's response unchanged, and (b) any exception escaping the
`try` body — retrieval, on-demand fetch retry, or generation — is caught
by `query` and converted into a response with confidence `"Low"` whose
response text and `error` field carry the exception message; exceptions
inside the translator never escape it (see the counterexample). -/
theorem query_step45_error_conversion (env : Env) (now : ℚ)
    (ctx : ConvContext) (q : PyStr)
    (hsafe : (checkQuery q).is_safe = true)
    (hint : (detectInteractionQuery now ctx q).1 = none)
    (hmulti : isMultiDrugQuery q = false) :
    (isDosageQuery q = true →
      queryRag env now ctx q true =
        (handleDosageQuery env q, (detectInteractionQuery now ctx q).2)) ∧
    (isDosageQuery q = false → ∀ e : PyStr,
      standardBody env now (detectInteractionQuery now ctx q).2 q = .error e →
      queryRag env now ctx q true =
        (convError e, (detectInteractionQuery now ctx q).2) ∧
      (convError e).confidence = pys "Low" ∧
      (convError e).error = some e ∧
      (convError e).response =
        pys "I apologize, but I encountered an error processing your question: " ++ e) := by
  rcases hdet : detectInteractionQuery now ctx q with ⟨fst, ctxd⟩
  have hfst : fst = none := hint ▸ (by rw [hdet])
  subst hfst
  have hq : queryRag env now ctx q true =
      (if isMultiDrugQuery q then handleMultiDrugQuery env now ctxd q
       else if isDosageQuery q then (handleDosageQuery env q, ctxd)
       else
        match standardBody env now ctxd q with
        | .ok rc => rc
        | .error e => (convError e, ctxd)) := by
    unfold queryRag
    dsimp only
    rw [hsafe, hdet]
    rfl
  constructor
  · intro hd
    rw [hq, hmulti, hd]
    simp
  · intro hd e herr
    refine ⟨?_, rfl, rfl, rfl⟩
    rw [hq, hmulti, hd]
    simp only [Bool.false_eq_true, if_false]
    have herr' : standardBody env now ctxd q = .error e := herr
    rw [herr']

/-- Environment whose vector-store search raises. -/
def errEnv : Env :=
  { search := fun _ _ => .error (pys "boom")
    listAllDrugs := []
    fetchBody := fun _ => .ok false
    llm := fun _ => .ok []
    translatorLLM := fun _ => .ok [] }

/-- Witness for the amended C2: a retrieval exception on the standard
path is converted to the Low-confidence error response. -/
theorem query_step45_error_conversion_witness :
    (checkQuery (pys "tell me about ibuprofen")).is_safe = true ∧
    isDosageQuery (pys "tell me about ibuprofen") = false ∧
    standardBody errEnv 0
        (detectInteractionQuery 0 ConvContext.init (pys "tell me about ibuprofen")).2
        (pys "tell me about ibuprofen") = .error (pys "boom") ∧
    queryRag errEnv 0 ConvContext.init (pys "tell me about ibuprofen") true =
      (convError (pys "boom"),
        (detectInteractionQuery 0 ConvContext.init (pys "tell me about ibuprofen")).2) := by
  refine ⟨by decide, by decide, by rfl, ?_⟩
  exact (((query_step45_error_conversion errEnv 0 ConvContext.init
      (pys "tell me about ibuprofen") (by decide) (by decide) (by decide)).2
    (by decide) (pys "boom") (by rfl)).1)

/-- The confidence values `query` can produce. -/
def allowedConf : List PyStr :=
  [pys "High", pys "Moderate", pys "Medium", pys "Low", pys "N/A"]

lemma createInteractionResponse_conf (d1 d2 t sv : PyStr) :
    (createInteractionResponse d1 d2 t sv).confidence ∈ allowedConf := by
  unfold createInteractionResponse
  dsimp only
  split
  · exact (by decide : pys "High" ∈ allowedConf)
  · exact (by decide : pys "Moderate" ∈ allowedConf)

lemma analyzeInteraction_conf (d1 d2 : PyStr) :
    (analyzeInteraction d1 d2).confidence ∈ allowedConf := by
  unfold analyzeInteraction
  dsimp only
  repeat' split
  all_goals
    first
      | exact createInteractionResponse_conf _ _ _ _
      | exact (by decide : pys "Low" ∈ allowedConf)

lemma formatCombinedResponse_conf (rs : List Response) (oq : PyStr) :
    (formatCombinedResponse rs oq).confidence ∈ allowedConf := by
  unfold formatCombinedResponse
  dsimp only
  repeat' split
  all_goals
    first
      | exact (by decide : pys "High" ∈ allowedConf)
      | exact (by decide : pys "Medium" ∈ allowedConf)
      | exact (by decide : pys "Low" ∈ allowedConf)

lemma calculateConfidence_conf (s : List SourceInfo) (c : PyStr) :
    calculateConfidence s c ∈ allowedConf := by
  unfold calculateConfidence
  repeat' split
  all_goals
    first
      | exact (by decide : pys "High" ∈ allowedConf)
      | exact (by decide : pys "Medium" ∈ allowedConf)
      | exact (by decide : pys "Low" ∈ allowedConf)

lemma handleDosageQuery_conf (env : Env) (q : PyStr) :
    (handleDosageQuery env q).confidence ∈ allowedConf := by
  unfold handleDosageQuery
  dsimp only
  repeat' split
  all_goals
    first
      | exact (by decide : pys "High" ∈ allowedConf)
      | exact (by decide : pys "Medium" ∈ allowedConf)

lemma finishStandard_conf (env : Env) (now : ℚ) (ctx : ConvContext)
    (q : PyStr) (af : Bool) (c : PyStr) (rc : Response × ConvContext)
    (h : finishStandard env now ctx q af c = .ok rc) :
    rc.1.confidence ∈ allowedConf := by
  unfold finishStandard at h
  split at h
  · exact absurd h (by simp)
  · simp only [Except.ok.injEq] at h
    subst h
    exact calculateConfidence_conf _ _

lemma standardBody_conf (env : Env) (now : ℚ) (ctx : ConvContext)
    (q : PyStr) (rc : Response × ConvContext)
    (h : standardBody env now ctx q = .ok rc) :
    rc.1.confidence ∈ allowedConf := by
  unfold standardBody at h
  dsimp only at h
  repeat' split at h
  all_goals
    first
      | exact Except.noConfusion h
      | exact finishStandard_conf _ _ _ _ _ _ _ h
      | (simp only [Except.ok.injEq] at h
         subst h
         exact (by decide : pys "Low" ∈ allowedConf))

lemma handleMultiDrugQuery_conf (env : Env) (now : ℚ) (ctx : ConvContext)
    (q : PyStr) :
    (handleMultiDrugQuery env now ctx q).1.confidence ∈ allowedConf := by
  unfold handleMultiDrugQuery
  dsimp only
  by_cases hd : extractDrugList q = []
  · rw [if_pos hd]
    exact (by decide : pys "Low" ∈ allowedConf)
  · rw [if_neg hd]
    dsimp only
    exact formatCombinedResponse_conf _ _

/-- C1 amended: on every dispatch path and for every environment, the
confidence of `query`'s response is one of `"High"`, `"Moderate"`,
`"Medium"`, `"Low"`, `"N/A"` — the interaction path can produce
`"Moderate"`, which is outside the set the claim states. -/
theorem query_confidence_in_range (env : Env) (now : ℚ) (ctx : ConvContext)
    (q : PyStr) (incl : Bool) :
    (queryRag env now ctx q incl).1.confidence ∈ allowedConf := by
  unfold queryRag
  dsimp only
  split
  · exact (by decide : pys "N/A" ∈ allowedConf)
  · split
    · exact analyzeInteraction_conf _ _
    · split
      · exact handleMultiDrugQuery_conf _ _ _ _
      · split
        · exact handleDosageQuery_conf _ _
        · split
          · next rc hrc => exact standardBody_conf _ _ _ _ _ hrc
          · exact (by decide : pys "Low" ∈ allowedConf)

/-- C1 counterexample: `query` on `"can i take tylenol with advil?"`
dispatches to the interaction path (tylenol/advil normalize to the
`(acetaminophen, ibuprofen)` safe-combination entry, whose type
`safe_alternating` is mapped to confidence `"Moderate"`), so the returned
confidence is not one of `High`, `Medium`, `Low`, `N/A`. -/
theorem query_confidence_moderate :
    (queryRag trivialEnv 0 ConvContext.init
        (pys "can i take tylenol with advil?") true).1.confidence =
      pys "Moderate" ∧
    pys "Moderate" ∉ [pys "High", pys "Medium", pys "Low", pys "N/A"] := by
  exact ⟨by decide, by decide⟩
